import Mathlib

/-!
# SCSI dynamic power management (`drivers/scsi/scsi_pm.c`)

A shallow embedding of the bus-level power-transition entry points of
`scsi_pm.c`, and theorems about the order in which they call their
collaborators (request queue, driver hooks, runtime-PM framework, discovery
barriers).

The file under study only sequences calls.  The callees live elsewhere, so the
embedding keeps

* a `World`: the three pieces of state this file reads or forces
  (`request_queue->nr_pending`, the cached runtime-PM status, the tracking
  flag) together with the trace of every call issued, each stamped with the
  pending count at the moment of the call;
* an `Env`: what the collaborators answer.  Every value returned by a callee is
  a parameter, a function of the world at the moment of the call.

The world is sequential: `nr_pending` changes only inside `scsi_run_queue`, and
the cached status only through the three force/enable/disable primitives that
this file calls.
-/

namespace ScsiPm

/-! ## Data model -/

/-- Runtime-PM status of a device (`enum rpm_status`). -/
inductive rpm_status
  | RPM_ACTIVE
  | RPM_RESUMING
  | RPM_SUSPENDED
  | RPM_SUSPENDING
  deriving DecidableEq, Repr

/-- The calls `scsi_pm.c` issues to code outside the file.  A call whose result
the file reads carries that result; a call that is handed a value carries it. -/
inductive Call
  | blk_pre_runtime_suspend (ret : Int)
  | blk_post_runtime_suspend (err : Int)
  | blk_pre_runtime_resume
  | blk_post_runtime_resume (err : Int)
  | scsi_run_queue
  | cb (fn : Nat) (ret : Int)
  | __pm_runtime_disable (check_resume : Bool)
  | pm_runtime_disable
  | pm_runtime_set_suspended
  | pm_runtime_set_active
  | pm_runtime_enable
  | pm_request_resume (ret : Int)
  | pm_runtime_mark_last_busy
  | pm_runtime_autosuspend (ret : Int)
  | pm_runtime_suspend (ret : Int)
  | pm_runtime_get_sync (ret : Int)
  | pm_runtime_put_sync
  | async_synchronize_full_domain
  | scsi_complete_async_scans
  deriving DecidableEq, Repr

/-- One entry of the trace: the call, and `request_queue->nr_pending` at the
moment the call is made. -/
structure Event where
  call : Call
  nr_pending : Nat
  deriving DecidableEq, Repr

/-- The state one device's entry points act on. -/
structure World where
  /-- Field `sdev->request_queue->nr_pending`. -/
  nr_pending : Nat
  /-- Field `dev->power.runtime_status`, the framework's cached power state. -/
  runtime_status : rpm_status
  /-- Whether runtime-PM tracking of the device is enabled. -/
  runtime_enabled : Bool
  /-- Calls issued so far, oldest first. -/
  trace : List Event
  deriving DecidableEq, Repr

/-- A driver callback `int (*cb)(struct device *)`: the function's identity and
the value it returns when run in a given world. -/
structure Hook where
  fn : Nat
  body : World → Int

/-- The slots of `struct dev_pm_ops` that `scsi_pm.c` reads from a driver. -/
structure dev_pm_ops where
  suspend : Option Hook
  freeze : Option Hook
  thaw : Option Hook
  poweroff : Option Hook
  restore : Option Hook
  runtime_suspend : Option Hook
  runtime_resume : Option Hook

/-- The part of `struct device_driver` read here: `driver->pm`, possibly NULL. -/
structure device_driver where
  pm : Option dev_pm_ops

/-- What `dev->type` points at. -/
inductive device_type
  | scsi_dev_type
  | scsi_host_type
  | scsi_target_type
  | other
  deriving DecidableEq, Repr

/-- The part of `struct device` read here: `dev->type` and `dev->driver`
(possibly NULL). -/
structure device where
  type : device_type
  driver : Option device_driver

/-- Answers of the collaborators whose result the file reads, and the effect of
`scsi_run_queue` on the pending count. -/
structure Env where
  blk_pre_runtime_suspend : World → Int
  scsi_run_queue : Nat → Nat
  pm_request_resume : World → Int
  pm_runtime_autosuspend : World → Int
  pm_runtime_suspend : World → Int
  pm_runtime_get_sync : World → Int

/-- Errno `EACCES` (`include/uapi/asm-generic/errno-base.h`). -/
def EACCES : Int := 13

/-! ## Collaborators -/

/-- Append a call to the trace, stamped with the current pending count. -/
def World.log (w : World) (c : Call) : World :=
  { w with trace := w.trace ++ [⟨c, w.nr_pending⟩] }

/-- Test `scsi_is_sdev_device(dev)`: `dev->type == &scsi_dev_type`. -/
def scsi_is_sdev_device (dev : device) : Bool :=
  dev.type == device_type.scsi_dev_type

/-- Test `scsi_is_host_device(dev)`: `dev->type == &scsi_host_type`. -/
def scsi_is_host_device (dev : device) : Bool :=
  dev.type == device_type.scsi_host_type

/-- The expression `dev->driver ? dev->driver->pm : NULL`. -/
def driver_pm (dev : device) : Option dev_pm_ops :=
  match dev.driver with
  | some drv => drv.pm
  | none => none

/-- The expression `pm ? pm->slot : NULL`. -/
def pm_slot (pm : Option dev_pm_ops) (slot : dev_pm_ops → Option Hook) : Option Hook :=
  match pm with
  | some ops => slot ops
  | none => none

/-- Call of `blk_pre_runtime_suspend` (block layer, not in this file): logged,
its result supplied by the environment. -/
def blk_pre_runtime_suspend (env : Env) (w : World) : Int × World :=
  (env.blk_pre_runtime_suspend w, w.log (Call.blk_pre_runtime_suspend (env.blk_pre_runtime_suspend w)))

/-- Call of `blk_post_runtime_suspend(q, err)` (block layer, not in this file):
logged with the `err` it is handed. -/
def blk_post_runtime_suspend (err : Int) (w : World) : World :=
  w.log (Call.blk_post_runtime_suspend err)

/-- Call of `blk_pre_runtime_resume` (block layer, not in this file): logged. -/
def blk_pre_runtime_resume (w : World) : World :=
  w.log Call.blk_pre_runtime_resume

/-- Call of `blk_post_runtime_resume(q, err)` (block layer, not in this file):
logged with the `err` it is handed. -/
def blk_post_runtime_resume (err : Int) (w : World) : World :=
  w.log (Call.blk_post_runtime_resume err)

/-- Call of `scsi_run_queue` (SCSI mid-layer, not in this file): logged; the
pending count it leaves is supplied by the environment. -/
def scsi_run_queue (env : Env) (w : World) : World :=
  { w.log Call.scsi_run_queue with nr_pending := env.scsi_run_queue w.nr_pending }

/-- The call `cb(dev)` through a non-NULL callback pointer. -/
def call_cb (f : Hook) (w : World) : Int × World :=
  (f.body w, w.log (Call.cb f.fn (f.body w)))

/-- Modelled from the spec: `pm_runtime_suspended` of the runtime-PM framework
(not in this file), as the spec's `get_cached_state` reporting SUSPENDED. -/
def pm_runtime_suspended (w : World) : Bool :=
  w.runtime_status == rpm_status.RPM_SUSPENDED

/-- Modelled from the spec: `__pm_runtime_disable` of the runtime-PM framework
(not in this file), as the spec's `disable_tracking`. -/
def __pm_runtime_disable (check_resume : Bool) (w : World) : World :=
  { w.log (Call.__pm_runtime_disable check_resume) with runtime_enabled := false }

/-- Modelled from the spec: `pm_runtime_disable` of the runtime-PM framework
(not in this file), as the spec's `disable_tracking`. -/
def pm_runtime_disable (w : World) : World :=
  { w.log Call.pm_runtime_disable with runtime_enabled := false }

/-- Modelled from the spec: `pm_runtime_set_suspended` of the runtime-PM
framework (not in this file), as the spec's `force_state(SUSPENDED)`. -/
def pm_runtime_set_suspended (w : World) : World :=
  { w.log Call.pm_runtime_set_suspended with runtime_status := rpm_status.RPM_SUSPENDED }

/-- Modelled from the spec: `pm_runtime_set_active` of the runtime-PM framework
(not in this file), as the spec's `force_state(ACTIVE)`. -/
def pm_runtime_set_active (w : World) : World :=
  { w.log Call.pm_runtime_set_active with runtime_status := rpm_status.RPM_ACTIVE }

/-- Modelled from the spec: `pm_runtime_enable` of the runtime-PM framework
(not in this file), as the spec's `enable_tracking`. -/
def pm_runtime_enable (w : World) : World :=
  { w.log Call.pm_runtime_enable with runtime_enabled := true }

/-- Call of `pm_request_resume` (runtime-PM framework, not in this file):
logged, its result supplied by the environment. -/
def pm_request_resume (env : Env) (w : World) : Int × World :=
  (env.pm_request_resume w, w.log (Call.pm_request_resume (env.pm_request_resume w)))

/-- Call of `pm_runtime_mark_last_busy` (runtime-PM framework, not in this
file): logged. -/
def pm_runtime_mark_last_busy (w : World) : World :=
  w.log Call.pm_runtime_mark_last_busy

/-- Call of `pm_runtime_autosuspend` (runtime-PM framework, not in this file):
logged, its result supplied by the environment. -/
def pm_runtime_autosuspend (env : Env) (w : World) : Int × World :=
  (env.pm_runtime_autosuspend w, w.log (Call.pm_runtime_autosuspend (env.pm_runtime_autosuspend w)))

/-- Call of `pm_runtime_suspend` (runtime-PM framework, not in this file):
logged, its result supplied by the environment. -/
def pm_runtime_suspend (env : Env) (w : World) : Int × World :=
  (env.pm_runtime_suspend w, w.log (Call.pm_runtime_suspend (env.pm_runtime_suspend w)))

/-- Call of `pm_runtime_get_sync` (runtime-PM framework, not in this file):
logged, its result supplied by the environment. -/
def pm_runtime_get_sync (env : Env) (w : World) : Int × World :=
  (env.pm_runtime_get_sync w, w.log (Call.pm_runtime_get_sync (env.pm_runtime_get_sync w)))

/-- Call of `pm_runtime_put_sync` (runtime-PM framework, not in this file):
logged. -/
def pm_runtime_put_sync (w : World) : World :=
  w.log Call.pm_runtime_put_sync

/-- Call of `async_synchronize_full_domain(&scsi_sd_probe_domain)` (not in this
file): logged. -/
def async_synchronize_full_domain (w : World) : World :=
  w.log Call.async_synchronize_full_domain

/-- Call of `scsi_complete_async_scans` (SCSI scan code, not in this file):
logged. -/
def scsi_complete_async_scans (w : World) : World :=
  w.log Call.scsi_complete_async_scans

/-! ## The functions of `scsi_pm.c` -/

/-- Function `sdev_suspend_common`. -/
def sdev_suspend_common (env : Env) (cb : Option Hook) (w : World) : Int × World :=
  let r := blk_pre_runtime_suspend env w
  if r.1 ≠ 0 then r
  else
    let r := match cb with
      | some f => call_cb f r.2
      | none => r
    (r.1, blk_post_runtime_suspend r.1 r.2)

/-- The loop `while (sdev->request_queue->nr_pending) scsi_run_queue(...)` of
`sdev_suspend`; one unit of fuel per evaluation of the loop condition. -/
def sdev_suspend_drain (env : Env) : Nat → World → Option World
  | 0, _ => none
  | fuel + 1, w =>
    if w.nr_pending ≠ 0 then sdev_suspend_drain env fuel (scsi_run_queue env w)
    else some w

/-- Function `sdev_suspend`. -/
def sdev_suspend (env : Env) (fuel : Nat) (cb : Option Hook) (w : World) :
    Option (Int × World) :=
  match sdev_suspend_drain env fuel w with
  | some w => some (sdev_suspend_common env cb w)
  | none => none

/-- Function `sdev_resume`. -/
def sdev_resume (cb : Option Hook) (w : World) : Int × World :=
  let w := blk_pre_runtime_resume w
  let r := match cb with
    | some f => call_cb f w
    | none => (0, w)
  (r.1, blk_post_runtime_resume r.1 r.2)

/-- Function `scsi_bus_suspend_common`. -/
def scsi_bus_suspend_common (env : Env) (fuel : Nat) (dev : device) (cb : Option Hook)
    (w : World) : Option (Int × World) :=
  if scsi_is_sdev_device dev then
    if pm_runtime_suspended w then some (0, w)
    else sdev_suspend env fuel cb w
  else some (0, w)

/-- Function `scsi_bus_resume_common`. -/
def scsi_bus_resume_common (dev : device) (cb : Option Hook) (w : World) : Int × World :=
  let r := if scsi_is_sdev_device dev then sdev_resume cb w else (0, w)
  if r.1 = 0 then
    (r.1, pm_runtime_enable (pm_runtime_set_active (pm_runtime_disable r.2)))
  else r

/-- Function `scsi_bus_prepare`. -/
def scsi_bus_prepare (dev : device) (w : World) : Int × World :=
  if scsi_is_sdev_device dev then (0, async_synchronize_full_domain w)
  else if scsi_is_host_device dev then (0, scsi_complete_async_scans w)
  else (0, w)

/-- Function `scsi_bus_suspend`. -/
def scsi_bus_suspend (env : Env) (fuel : Nat) (dev : device) (w : World) :
    Option (Int × World) :=
  match scsi_bus_suspend_common env fuel dev (pm_slot (driver_pm dev) dev_pm_ops.suspend) w with
  | some r =>
    if r.1 = 0 then
      some (r.1, pm_runtime_enable (pm_runtime_set_suspended (__pm_runtime_disable false r.2)))
    else some r
  | none => none

/-- Function `scsi_bus_resume`. -/
def scsi_bus_resume (env : Env) (_dev : device) (w : World) : Int × World :=
  pm_request_resume env w

/-- Function `scsi_bus_freeze`. -/
def scsi_bus_freeze (env : Env) (fuel : Nat) (dev : device) (w : World) :
    Option (Int × World) :=
  scsi_bus_suspend_common env fuel dev (pm_slot (driver_pm dev) dev_pm_ops.freeze) w

/-- Function `scsi_bus_thaw`. -/
def scsi_bus_thaw (dev : device) (w : World) : Int × World :=
  scsi_bus_resume_common dev (pm_slot (driver_pm dev) dev_pm_ops.thaw) w

/-- Function `scsi_bus_poweroff`. -/
def scsi_bus_poweroff (env : Env) (fuel : Nat) (dev : device) (w : World) :
    Option (Int × World) :=
  scsi_bus_suspend_common env fuel dev (pm_slot (driver_pm dev) dev_pm_ops.poweroff) w

/-- Function `scsi_bus_restore`. -/
def scsi_bus_restore (dev : device) (w : World) : Int × World :=
  scsi_bus_resume_common dev (pm_slot (driver_pm dev) dev_pm_ops.restore) w

/-- Function `scsi_bus_runtime_suspend`. -/
def scsi_bus_runtime_suspend (env : Env) (dev : device) (w : World) : Int × World :=
  if scsi_is_sdev_device dev then
    sdev_suspend_common env (pm_slot (driver_pm dev) dev_pm_ops.runtime_suspend) w
  else (0, w)

/-- Function `scsi_bus_runtime_resume`. -/
def scsi_bus_runtime_resume (dev : device) (w : World) : Int × World :=
  if scsi_is_sdev_device dev then
    sdev_resume (pm_slot (driver_pm dev) dev_pm_ops.runtime_resume) w
  else (0, w)

/-- Function `scsi_bus_runtime_idle`. -/
def scsi_bus_runtime_idle (env : Env) (dev : device) (w : World) : Int × World :=
  if scsi_is_sdev_device dev then
    pm_runtime_autosuspend env (pm_runtime_mark_last_busy w)
  else pm_runtime_suspend env w

/-- Function `scsi_autopm_get_device`, acting on `sdev->sdev_gendev`. -/
def scsi_autopm_get_device (env : Env) (w : World) : Int × World :=
  let r := pm_runtime_get_sync env w
  if r.1 < 0 ∧ r.1 ≠ -EACCES then (r.1, pm_runtime_put_sync r.2)
  else (0, r.2)

/-- Function `scsi_autopm_put_device`. -/
def scsi_autopm_put_device (w : World) : World :=
  pm_runtime_put_sync w

/-- Function `scsi_autopm_get_target`, acting on `starget->dev`; it returns
`void`. -/
def scsi_autopm_get_target (env : Env) (w : World) : World :=
  (pm_runtime_get_sync env w).2

/-- Function `scsi_autopm_put_target`. -/
def scsi_autopm_put_target (w : World) : World :=
  pm_runtime_put_sync w

/-- Function `scsi_autopm_get_host`, acting on `shost->shost_gendev`. -/
def scsi_autopm_get_host (env : Env) (w : World) : Int × World :=
  let r := pm_runtime_get_sync env w
  if r.1 < 0 ∧ r.1 ≠ -EACCES then (r.1, pm_runtime_put_sync r.2)
  else (0, r.2)

/-- Function `scsi_autopm_put_host`. -/
def scsi_autopm_put_host (w : World) : World :=
  pm_runtime_put_sync w


/-! ## Properties of traces -/

/-- The calls of the drain loop that starts with `n` requests pending and runs
the queue `k` times. -/
def drain_trace (run : Nat → Nat) : Nat → Nat → List Event
  | 0, _ => []
  | k + 1, n => ⟨Call.scsi_run_queue, n⟩ :: drain_trace run k (run n)

/-- The world after a drain loop of `k` runs has emptied the queue. -/
def drained (env : Env) (k : Nat) (w : World) : World :=
  { w with nr_pending := 0,
           trace := w.trace ++ drain_trace env.scsi_run_queue k w.nr_pending }

/-- Every driver-hook call in the trace `t` is a call of the callback `cb`, is
made with `n` requests pending, and comes directly after a
`blk_pre_runtime_suspend` that returned 0. -/
def hook_guarded (cb : Option Hook) (n : Nat) (t : List Event) : Prop :=
  ∀ pre post fn ret np, t = pre ++ ⟨Call.cb fn ret, np⟩ :: post →
    np = n ∧ (∃ f, cb = some f ∧ f.fn = fn) ∧
      ∃ pre0, pre = pre0 ++ [⟨Call.blk_pre_runtime_suspend 0, n⟩]

/-- No event of the trace `t` is a driver-hook call. -/
def no_hook (t : List Event) : Prop :=
  ∀ e ∈ t, ∀ fn ret, e.call ≠ Call.cb fn ret

/-- The calls made by the Stop primitive and its drain loop: queue calls and
the driver callback. -/
def Call.is_stop : Call → Bool
  | Call.scsi_run_queue => true
  | Call.blk_pre_runtime_suspend _ => true
  | Call.cb _ _ => true
  | Call.blk_post_runtime_suspend _ => true
  | _ => false

/-- The calls made by the Start primitive: queue calls and the driver
callback. -/
def Call.is_start : Call → Bool
  | Call.blk_pre_runtime_resume => true
  | Call.cb _ _ => true
  | Call.blk_post_runtime_resume _ => true
  | _ => false

/-- Modelled from the spec: the contract of `blk_pre_runtime_suspend` (block
layer, not in this file), the spec's `begin_drain`, which succeeds only once
the in-flight count has reached zero: the step returns 0 only on a queue with
nothing pending. -/
def pre_suspend_refuses_busy (env : Env) : Prop :=
  ∀ w, env.blk_pre_runtime_suspend w = 0 → w.nr_pending = 0

/-- The calls that force the cached power state. -/
def Call.is_force : Call → Bool
  | Call.pm_runtime_set_suspended => true
  | Call.pm_runtime_set_active => true
  | _ => false

/-- No event of the trace `t` forces the cached power state. -/
def no_force (t : List Event) : Prop :=
  ∀ e ∈ t, e.call.is_force = false

/-- The hook of a slot is absent: no driver is bound (`dev->driver` is NULL), or
the driver has no hook table (`driver->pm` is NULL), or the slot is NULL. -/
def hook_absent (dev : device) (slot : dev_pm_ops → Option Hook) : Prop :=
  dev.driver = none ∨ (∃ drv, dev.driver = some drv ∧ drv.pm = none) ∨
    (∃ drv ops, dev.driver = some drv ∧ drv.pm = some ops ∧ slot ops = none)

/-! ## Concrete devices and environments -/

/-- An environment in which every collaborator answers 0 and each queue run
completes one pending request. -/
def env_ok : Env :=
  ⟨fun _ => 0, fun n => n - 1, fun _ => 0, fun _ => 0, fun _ => 0, fun _ => 0⟩

/-- A callback with identity `fn` that always returns `ret`. -/
def hook_ret (fn : Nat) (ret : Int) : Hook := ⟨fn, fun _ => ret⟩

/-- A hook table with every slot filled by a callback that succeeds. -/
def sd_pm_ops : dev_pm_ops :=
  ⟨some (hook_ret 1 0), some (hook_ret 2 0), some (hook_ret 3 0), some (hook_ret 4 0),
    some (hook_ret 5 0), some (hook_ret 6 0), some (hook_ret 7 0)⟩

/-- A leaf device bound to a driver with the hook table `sd_pm_ops`. -/
def sd_dev : device := ⟨device_type.scsi_dev_type, some ⟨some sd_pm_ops⟩⟩

/-- A hook table with every slot filled by a callback that fails with -5. -/
def eio_pm_ops : dev_pm_ops :=
  ⟨some (hook_ret 1 (-5)), some (hook_ret 2 (-5)), some (hook_ret 3 (-5)),
    some (hook_ret 4 (-5)), some (hook_ret 5 (-5)), some (hook_ret 6 (-5)),
    some (hook_ret 7 (-5))⟩

/-- A leaf device bound to a driver with the hook table `eio_pm_ops`. -/
def eio_dev : device := ⟨device_type.scsi_dev_type, some ⟨some eio_pm_ops⟩⟩

/-- A leaf device with no driver bound (`dev->driver` is NULL). -/
def unbound_dev : device := ⟨device_type.scsi_dev_type, none⟩

/-- A leaf device bound to a driver that has no hook table (`driver->pm` is
NULL). -/
def no_pm_dev : device := ⟨device_type.scsi_dev_type, some ⟨none⟩⟩

/-- A target node bound to a driver with the hook table `sd_pm_ops`. -/
def target_dev : device := ⟨device_type.scsi_target_type, some ⟨some sd_pm_ops⟩⟩

/-- An environment like `env_ok` whose pre-suspend step answers -16 while
requests are pending and 0 on an empty queue. -/
def env_busy : Env :=
  ⟨fun w => if w.nr_pending = 0 then 0 else -16, fun n => n - 1, fun _ => 0, fun _ => 0,
    fun _ => 0, fun _ => 0⟩

/-- An environment like `env_ok` whose pre-suspend step always answers -16. -/
def env_refuse : Env :=
  ⟨fun _ => -16, fun n => n - 1, fun _ => 0, fun _ => 0, fun _ => 0, fun _ => 0⟩

/-- A host-controller node with no driver bound. -/
def host_dev : device := ⟨device_type.scsi_host_type, none⟩

/-- An environment like `env_ok` in which every request to the runtime-PM
framework is answered with `-EACCES`. -/
def env_pm_eacces : Env :=
  ⟨fun _ => 0, fun n => n - 1, fun _ => -13, fun _ => -13, fun _ => -13, fun _ => -13⟩

/-- An environment like `env_ok` in which every request to the runtime-PM
framework is answered with -5. -/
def env_pm_eio : Env :=
  ⟨fun _ => 0, fun n => n - 1, fun _ => -5, fun _ => -5, fun _ => -5, fun _ => -5⟩

/-- A world with `n` requests pending, cached status `st`, tracking enabled and
nothing called yet. -/
def world_init (n : Nat) (st : rpm_status) : World := ⟨n, st, true, []⟩

/-! ## Lemmas -/

theorem hook_guarded_of_no_hook (cb : Option Hook) (n : Nat) (t : List Event)
    (h : no_hook t) : hook_guarded cb n t := by
  intro pre post fn ret np ht
  exact absurd rfl (h ⟨Call.cb fn ret, np⟩ (by simp [ht]) fn ret)

theorem hook_guarded_append_left (cb : Option Hook) (n : Nat) (s t : List Event)
    (hs : no_hook s) (ht : hook_guarded cb n t) : ∀ pre post fn ret np,
    s ++ t = pre ++ ⟨Call.cb fn ret, np⟩ :: post →
      np = n ∧ (∃ f, cb = some f ∧ f.fn = fn) ∧
        ∃ pre0, pre = s ++ pre0 ++ [⟨Call.blk_pre_runtime_suspend 0, n⟩] := by
  intro pre post fn ret np h
  rcases List.append_eq_append_iff.mp h with ⟨a, ha, hb⟩ | ⟨c, hc, hd⟩
  · obtain ⟨h1, h2, pre0, h3⟩ := ht a post fn ret np hb
    exact ⟨h1, h2, pre0, by rw [ha, h3, List.append_assoc]⟩
  · cases c with
    | nil =>
      simp at hc hd
      obtain ⟨h1, h2, pre0, h3⟩ := ht [] post fn ret np (by simpa using hd.symm)
      simp at h3
    | cons x c =>
      simp at hd
      exact absurd hd.1.symm (by
        intro hx
        exact hs x (by simp [hc]) fn ret (by rw [hx]))


@[simp] theorem log_trace (w : World) (c : Call) :
    (w.log c).trace = w.trace ++ [⟨c, w.nr_pending⟩] := rfl

@[simp] theorem log_nr_pending (w : World) (c : Call) :
    (w.log c).nr_pending = w.nr_pending := rfl

@[simp] theorem log_runtime_status (w : World) (c : Call) :
    (w.log c).runtime_status = w.runtime_status := rfl

@[simp] theorem log_runtime_enabled (w : World) (c : Call) :
    (w.log c).runtime_enabled = w.runtime_enabled := rfl

theorem no_hook_drain_trace (run : Nat → Nat) : ∀ (k n : Nat), no_hook (drain_trace run k n)
  | 0, _ => by intro e he; simp [drain_trace] at he
  | k + 1, n => by
    intro e he fn ret
    simp only [drain_trace, List.mem_cons] at he
    rcases he with rfl | he
    · simp
    · exact no_hook_drain_trace run k (run n) e he fn ret

/-- While the loop runs, the stamp of every `scsi_run_queue` call is the
pending count the loop condition has just read. -/
theorem drain_trace_stamp (run : Nat → Nat) : ∀ (k n : Nat) (i : Nat)
    (h : i < (drain_trace run k n).length),
    (drain_trace run k n).get ⟨i, h⟩ = ⟨Call.scsi_run_queue, run^[i] n⟩
  | 0, _, i, h => by simp [drain_trace] at h
  | k + 1, n, 0, _ => by simp [drain_trace]
  | k + 1, n, i + 1, h => by
    simp only [drain_trace, List.length_cons, Nat.add_lt_add_iff_right] at h
    simpa [drain_trace] using drain_trace_stamp run k (run n) i h

theorem drain_trace_length (run : Nat → Nat) : ∀ (k n : Nat),
    (drain_trace run k n).length = k
  | 0, _ => rfl
  | k + 1, n => by simp [drain_trace, drain_trace_length run k (run n)]

/-- What the drain loop has done when it exits. -/
theorem sdev_suspend_drain_some (env : Env) : ∀ (fuel : Nat) (w w' : World),
    sdev_suspend_drain env fuel w = some w' →
    ∃ k, k < fuel ∧ env.scsi_run_queue^[k] w.nr_pending = 0 ∧
      (∀ j, j < k → env.scsi_run_queue^[j] w.nr_pending ≠ 0) ∧ w' = drained env k w
  | 0, w, w', h => by simp [sdev_suspend_drain] at h
  | fuel + 1, w, w', h => by
    unfold sdev_suspend_drain at h
    by_cases hn : w.nr_pending ≠ 0
    · rw [if_pos hn] at h
      obtain ⟨k, hk, h0, hmin, hw⟩ := sdev_suspend_drain_some env fuel _ _ h
      refine ⟨k + 1, by omega, ?_, ?_, ?_⟩
      · simpa [scsi_run_queue] using h0
      · intro j hj
        cases j with
        | zero => simpa using hn
        | succ j => simpa [scsi_run_queue] using hmin j (by omega)
      · rw [hw]
        simp [drained, scsi_run_queue, drain_trace]
    · rw [if_neg hn] at h
      have hn0 : w.nr_pending = 0 := by simpa using hn
      refine ⟨0, by omega, by simpa using hn0, by intro j hj; omega, ?_⟩
      cases w
      simp only [Option.some.injEq] at h
      subst h
      simp at hn0
      simp [drained, drain_trace, hn0]

/-- The drain loop exits as soon as the pending count has reached zero, given
fuel for that many evaluations of its condition. -/
theorem sdev_suspend_drain_terminates (env : Env) : ∀ (k fuel : Nat) (w : World),
    env.scsi_run_queue^[k] w.nr_pending = 0 → k < fuel →
    ∃ w', sdev_suspend_drain env fuel w = some w'
  | _, 0, _, _, hk => by omega
  | 0, fuel + 1, w, h0, _ => by
    have hn0 : w.nr_pending = 0 := by simpa using h0
    exact ⟨w, by simp [sdev_suspend_drain, hn0]⟩
  | k + 1, fuel + 1, w, h0, hk => by
    unfold sdev_suspend_drain
    by_cases hn : w.nr_pending ≠ 0
    · rw [if_pos hn]
      exact sdev_suspend_drain_terminates env k fuel (scsi_run_queue env w)
        (by simpa [scsi_run_queue] using h0) (by omega)
    · rw [if_neg hn]
      exact ⟨w, rfl⟩


/-- Function `sdev_suspend_common` when the pre-suspend step fails: its error is
returned and nothing else is called. -/
theorem sdev_suspend_common_refused (env : Env) (cb : Option Hook) (w : World)
    (h : env.blk_pre_runtime_suspend w ≠ 0) :
    sdev_suspend_common env cb w =
      (env.blk_pre_runtime_suspend w,
        { w with trace := w.trace ++
            [⟨Call.blk_pre_runtime_suspend (env.blk_pre_runtime_suspend w), w.nr_pending⟩] }) := by
  simp [sdev_suspend_common, blk_pre_runtime_suspend, h, World.log]

/-- Function `sdev_suspend_common` without a callback, the pre-suspend step
succeeding: post-suspend is told 0 and 0 is returned. -/
theorem sdev_suspend_common_no_cb (env : Env) (w : World)
    (h : env.blk_pre_runtime_suspend w = 0) :
    sdev_suspend_common env none w =
      (0, { w with trace := w.trace ++
            [⟨Call.blk_pre_runtime_suspend 0, w.nr_pending⟩,
             ⟨Call.blk_post_runtime_suspend 0, w.nr_pending⟩] }) := by
  simp [sdev_suspend_common, blk_pre_runtime_suspend, blk_post_runtime_suspend, h, World.log]

/-- Function `sdev_suspend_common` with a callback, the pre-suspend step
succeeding: the callback runs next, and its result is passed to post-suspend
and returned. -/
theorem sdev_suspend_common_cb (env : Env) (f : Hook) (w : World)
    (h : env.blk_pre_runtime_suspend w = 0) :
    sdev_suspend_common env (some f) w =
      (f.body (w.log (Call.blk_pre_runtime_suspend 0)),
        { w with trace := w.trace ++
            [⟨Call.blk_pre_runtime_suspend 0, w.nr_pending⟩,
             ⟨Call.cb f.fn (f.body (w.log (Call.blk_pre_runtime_suspend 0))), w.nr_pending⟩,
             ⟨Call.blk_post_runtime_suspend (f.body (w.log (Call.blk_pre_runtime_suspend 0))),
               w.nr_pending⟩] }) := by
  simp [sdev_suspend_common, blk_pre_runtime_suspend, blk_post_runtime_suspend, call_cb, h,
    World.log]

/-- The calls of `sdev_suspend_common`: the state it leaves differs from the one
it found only by the trace, and a callback call in the new part is guarded. -/
theorem sdev_suspend_common_guarded (env : Env) (cb : Option Hook) (w : World) :
    ∃ tail, (sdev_suspend_common env cb w).2 = { w with trace := w.trace ++ tail } ∧
      hook_guarded cb w.nr_pending tail := by
  by_cases h : env.blk_pre_runtime_suspend w = 0
  · cases cb with
    | none =>
      rw [sdev_suspend_common_no_cb env w h]
      refine ⟨_, rfl, ?_⟩
      intro pre post fn ret np ht
      rcases pre with _ | ⟨a, _ | ⟨b, _ | ⟨c, pre⟩⟩⟩ <;> simp at ht
    | some f =>
      rw [sdev_suspend_common_cb env f w h]
      refine ⟨_, rfl, ?_⟩
      intro pre post fn ret np ht
      rcases pre with _ | ⟨a, _ | ⟨b, _ | ⟨c, _ | ⟨d, pre⟩⟩⟩⟩ <;> simp at ht
      obtain ⟨ha, ⟨⟨hfn, _⟩, hnp⟩, _⟩ := ht
      exact ⟨hnp.symm, ⟨f, rfl, hfn⟩, [], by simp [ha]⟩
  · rw [sdev_suspend_common_refused env cb w h]
    refine ⟨_, rfl, ?_⟩
    intro pre post fn ret np ht
    rcases pre with _ | ⟨a, _ | ⟨b, pre⟩⟩ <;> simp at ht

/-- The two ways `scsi_bus_suspend_common` returns: at once with 0 and nothing
done (not a leaf device, or a leaf device cached SUSPENDED), or through
`sdev_suspend_common` after a drain loop that emptied the queue. -/
theorem scsi_bus_suspend_common_some (env : Env) (fuel : Nat) (dev : device)
    (cb : Option Hook) (w : World) (r : Int) (w' : World)
    (h : scsi_bus_suspend_common env fuel dev cb w = some (r, w')) :
    ((scsi_is_sdev_device dev = false ∨ pm_runtime_suspended w = true) ∧ r = 0 ∧ w' = w) ∨
    (scsi_is_sdev_device dev = true ∧ pm_runtime_suspended w = false ∧
      ∃ k, k < fuel ∧ env.scsi_run_queue^[k] w.nr_pending = 0 ∧
        (∀ j, j < k → env.scsi_run_queue^[j] w.nr_pending ≠ 0) ∧
        (r, w') = sdev_suspend_common env cb (drained env k w)) := by
  unfold scsi_bus_suspend_common at h
  by_cases hs : scsi_is_sdev_device dev = true
  · rw [if_pos hs] at h
    by_cases hp : pm_runtime_suspended w = true
    · rw [if_pos hp] at h
      simp only [Option.some.injEq, Prod.mk.injEq] at h
      exact Or.inl ⟨Or.inr hp, h.1.symm, h.2.symm⟩
    · rw [if_neg hp] at h
      unfold sdev_suspend at h
      cases hd : sdev_suspend_drain env fuel w with
      | none => simp [hd] at h
      | some w1 =>
        simp only [hd, Option.some.injEq] at h
        obtain ⟨k, hk, h0, hmin, hw⟩ := sdev_suspend_drain_some env fuel w w1 hd
        exact Or.inr ⟨hs, by simpa using hp, k, hk, h0, hmin, by rw [← hw, h]⟩
  · rw [if_neg hs] at h
    simp only [Option.some.injEq, Prod.mk.injEq] at h
    exact Or.inl ⟨Or.inl (by simpa using hs), h.1.symm, h.2.symm⟩

/-- Whatever `scsi_bus_suspend_common` has called when it returns, a callback
call among it is a call of `cb`, made with an empty queue directly after a
successful `blk_pre_runtime_suspend`. -/
theorem scsi_bus_suspend_common_guarded (env : Env) (fuel : Nat) (dev : device)
    (cb : Option Hook) (w : World) (r : Int) (w' : World)
    (h : scsi_bus_suspend_common env fuel dev cb w = some (r, w')) :
    ∃ new, w'.trace = w.trace ++ new ∧
      ∀ pre post fn ret np, new = pre ++ ⟨Call.cb fn ret, np⟩ :: post →
        np = 0 ∧ (∃ f, cb = some f ∧ f.fn = fn) ∧
          ∃ pre0, pre = pre0 ++ [⟨Call.blk_pre_runtime_suspend 0, 0⟩] := by
  rcases scsi_bus_suspend_common_some env fuel dev cb w r w' h with
    ⟨_, _, hw⟩ | ⟨_, _, k, _, _, _, hrw⟩
  · refine ⟨[], by simp [hw], ?_⟩
    intro pre post fn ret np ht
    simp at ht
  · obtain ⟨tail, ht, hg⟩ := sdev_suspend_common_guarded env cb (drained env k w)
    have hw : w' = (sdev_suspend_common env cb (drained env k w)).2 := by rw [← hrw]
    refine ⟨drain_trace env.scsi_run_queue k w.nr_pending ++ tail, ?_, ?_⟩
    · rw [hw, ht]; simp [drained]
    · intro pre post fn ret np hsplit
      obtain ⟨h1, h2, pre0, h3⟩ := hook_guarded_append_left cb 0 _ tail
        (no_hook_drain_trace _ k w.nr_pending) hg pre post fn ret np hsplit
      exact ⟨h1, h2, _, h3⟩


theorem hook_guarded_append_right (cb : Option Hook) (n : Nat) (t s : List Event)
    (ht : hook_guarded cb n t) (hs : no_hook s) : hook_guarded cb n (t ++ s) := by
  intro pre post fn ret np h
  rcases List.append_eq_append_iff.mp h with ⟨a, _, hb⟩ | ⟨c, hc, hd⟩
  · exact absurd rfl (hs ⟨Call.cb fn ret, np⟩ (by simp [hb]) fn ret)
  · cases c with
    | nil =>
      simp only [List.nil_append] at hd
      exact absurd rfl (hs ⟨Call.cb fn ret, np⟩ (by simp [← hd]) fn ret)
    | cons x c =>
      simp only [List.cons_append, List.cons.injEq] at hd
      exact ht pre c fn ret np (by rw [hc, hd.1])

/-- The calls of `sdev_suspend_common` are queue calls and the callback, and it
changes nothing of the state but the trace. -/
theorem sdev_suspend_common_calls (env : Env) (cb : Option Hook) (w : World) :
    ∃ tail, (sdev_suspend_common env cb w).2 = { w with trace := w.trace ++ tail } ∧
      ∀ e ∈ tail, e.call.is_stop = true := by
  by_cases h : env.blk_pre_runtime_suspend w = 0
  · cases cb with
    | none =>
      rw [sdev_suspend_common_no_cb env w h]
      exact ⟨_, rfl, by intro e he; simp at he; rcases he with rfl | rfl <;> rfl⟩
    | some f =>
      rw [sdev_suspend_common_cb env f w h]
      exact ⟨_, rfl, by intro e he; simp at he; rcases he with rfl | rfl | rfl <;> rfl⟩
  · rw [sdev_suspend_common_refused env cb w h]
    exact ⟨_, rfl, by intro e he; simp at he; subst he; rfl⟩

theorem drain_trace_is_stop (run : Nat → Nat) : ∀ (k n : Nat),
    ∀ e ∈ drain_trace run k n, e.call.is_stop = true
  | 0, _ => by intro e he; simp [drain_trace] at he
  | k + 1, n => by
    intro e he
    simp only [drain_trace, List.mem_cons] at he
    rcases he with rfl | he
    · rfl
    · exact drain_trace_is_stop run k (run n) e he

/-- Function `scsi_bus_suspend_common` leaves the cached status and the tracking
flag alone, and calls only the queue and the callback. -/
theorem scsi_bus_suspend_common_frame (env : Env) (fuel : Nat) (dev : device)
    (cb : Option Hook) (w : World) (r : Int) (w' : World)
    (h : scsi_bus_suspend_common env fuel dev cb w = some (r, w')) :
    w'.runtime_status = w.runtime_status ∧ w'.runtime_enabled = w.runtime_enabled ∧
      ∃ new, w'.trace = w.trace ++ new ∧ ∀ e ∈ new, e.call.is_stop = true := by
  rcases scsi_bus_suspend_common_some env fuel dev cb w r w' h with
    ⟨_, _, hw⟩ | ⟨_, _, k, _, _, _, hrw⟩
  · subst hw
    exact ⟨rfl, rfl, [], by simp, by intro e he; simp at he⟩
  · obtain ⟨tail, ht, hc⟩ := sdev_suspend_common_calls env cb (drained env k w)
    have hw : w' = (sdev_suspend_common env cb (drained env k w)).2 := by rw [← hrw]
    rw [hw, ht]
    refine ⟨rfl, rfl, drain_trace env.scsi_run_queue k w.nr_pending ++ tail, ?_, ?_⟩
    · simp [drained]
    · intro e he
      rcases List.mem_append.mp he with he | he
      · exact drain_trace_is_stop _ k _ e he
      · exact hc e he

/-- The drain loop with enough fuel returns exactly the world `drained env k w`,
where `k` is the number of runs after which the pending count first is 0. -/
theorem sdev_suspend_drain_eq (env : Env) (k fuel : Nat) (w : World)
    (h0 : env.scsi_run_queue^[k] w.nr_pending = 0)
    (hmin : ∀ j, j < k → env.scsi_run_queue^[j] w.nr_pending ≠ 0) (hk : k < fuel) :
    sdev_suspend_drain env fuel w = some (drained env k w) := by
  obtain ⟨w', hw'⟩ := sdev_suspend_drain_terminates env k fuel w h0 hk
  obtain ⟨k', _, h0', hmin', hd⟩ := sdev_suspend_drain_some env fuel w w' hw'
  have hkk : k' = k := by
    rcases Nat.lt_trichotomy k' k with hlt | heq | hgt
    · exact absurd h0' (hmin k' hlt)
    · exact heq
    · exact absurd h0 (hmin' k hgt)
  rw [hw', hd, hkk]

/-- When every queue run completes at least one pending request, the pending
count reaches 0 after at most as many runs as there were requests. -/
theorem drain_steps_exist (run : Nat → Nat) (hdec : ∀ m, 0 < m → run m < m) :
    ∀ n : Nat, ∃ k, k ≤ n ∧ run^[k] n = 0 ∧ ∀ j, j < k → run^[j] n ≠ 0 := by
  intro n
  induction n using Nat.strong_induction_on with
  | _ n ih =>
    by_cases hn : n = 0
    · exact ⟨0, by omega, by simpa using hn, by intro j hj; omega⟩
    · have hlt : run n < n := hdec n (Nat.pos_of_ne_zero hn)
      obtain ⟨k, hk, h0, hmin⟩ := ih (run n) hlt
      refine ⟨k + 1, by omega, by simpa using h0, ?_⟩
      intro j hj
      cases j with
      | zero => simpa using hn
      | succ j => simpa using hmin j (by omega)

/-- Function `scsi_bus_suspend_common` on a leaf device that is not cached
SUSPENDED: the drain loop, then `sdev_suspend_common` on the drained queue. -/
theorem scsi_bus_suspend_common_leaf (env : Env) (k fuel : Nat) (dev : device)
    (cb : Option Hook) (w : World)
    (hs : scsi_is_sdev_device dev = true) (hp : pm_runtime_suspended w = false)
    (h0 : env.scsi_run_queue^[k] w.nr_pending = 0)
    (hmin : ∀ j, j < k → env.scsi_run_queue^[j] w.nr_pending ≠ 0) (hk : k < fuel) :
    scsi_bus_suspend_common env fuel dev cb w =
      some (sdev_suspend_common env cb (drained env k w)) := by
  simp [scsi_bus_suspend_common, hs, hp, sdev_suspend,
    sdev_suspend_drain_eq env k fuel w h0 hmin hk]

/-- Function `sdev_resume` with a callback: pre-resume, the callback, then
post-resume with the callback's result, which is returned. -/
theorem sdev_resume_cb (f : Hook) (w : World) :
    sdev_resume (some f) w =
      (f.body (w.log Call.blk_pre_runtime_resume),
        { w with trace := w.trace ++
            [⟨Call.blk_pre_runtime_resume, w.nr_pending⟩,
             ⟨Call.cb f.fn (f.body (w.log Call.blk_pre_runtime_resume)), w.nr_pending⟩,
             ⟨Call.blk_post_runtime_resume (f.body (w.log Call.blk_pre_runtime_resume)),
               w.nr_pending⟩] }) := by
  simp [sdev_resume, blk_pre_runtime_resume, blk_post_runtime_resume, call_cb, World.log]

/-- Function `sdev_resume` without a callback: pre-resume, then post-resume
with 0, and 0 is returned. -/
theorem sdev_resume_no_cb (w : World) :
    sdev_resume none w =
      (0, { w with trace := w.trace ++
            [⟨Call.blk_pre_runtime_resume, w.nr_pending⟩,
             ⟨Call.blk_post_runtime_resume 0, w.nr_pending⟩] }) := by
  simp [sdev_resume, blk_pre_runtime_resume, blk_post_runtime_resume, World.log]

/-- Function `scsi_bus_resume_common` on a leaf device whose callback returns
`e`. -/
theorem scsi_bus_resume_common_cb (dev : device) (f : Hook) (w : World)
    (hs : scsi_is_sdev_device dev = true) :
    scsi_bus_resume_common dev (some f) w =
      if f.body (w.log Call.blk_pre_runtime_resume) = 0 then
        (0, ⟨w.nr_pending, rpm_status.RPM_ACTIVE, true, w.trace ++
          [⟨Call.blk_pre_runtime_resume, w.nr_pending⟩, ⟨Call.cb f.fn 0, w.nr_pending⟩,
            ⟨Call.blk_post_runtime_resume 0, w.nr_pending⟩,
            ⟨Call.pm_runtime_disable, w.nr_pending⟩, ⟨Call.pm_runtime_set_active, w.nr_pending⟩,
            ⟨Call.pm_runtime_enable, w.nr_pending⟩]⟩)
      else
        (f.body (w.log Call.blk_pre_runtime_resume),
          ⟨w.nr_pending, w.runtime_status, w.runtime_enabled, w.trace ++
            [⟨Call.blk_pre_runtime_resume, w.nr_pending⟩,
              ⟨Call.cb f.fn (f.body (w.log Call.blk_pre_runtime_resume)), w.nr_pending⟩,
              ⟨Call.blk_post_runtime_resume (f.body (w.log Call.blk_pre_runtime_resume)),
                w.nr_pending⟩]⟩) := by
  unfold scsi_bus_resume_common
  rw [if_pos hs, sdev_resume_cb]
  generalize f.body (w.log Call.blk_pre_runtime_resume) = e
  by_cases he : e = 0
  · subst he
    simp [pm_runtime_enable, pm_runtime_set_active, pm_runtime_disable, World.log]
  · simp [he]

/-- Function `scsi_bus_resume_common` when it returns 0: the Start primitive's
calls if any, then the forcing sequence; cached state ACTIVE, tracking on. -/
theorem scsi_bus_resume_common_success (dev : device) (cb : Option Hook) (w : World)
    (h : (scsi_bus_resume_common dev cb w).1 = 0) :
    ∃ start, (∀ e ∈ start, e.call.is_start = true) ∧
      (scsi_bus_resume_common dev cb w).2 =
        ⟨w.nr_pending, rpm_status.RPM_ACTIVE, true, w.trace ++ start ++
          [⟨Call.pm_runtime_disable, w.nr_pending⟩, ⟨Call.pm_runtime_set_active, w.nr_pending⟩,
            ⟨Call.pm_runtime_enable, w.nr_pending⟩]⟩ := by
  by_cases hs : scsi_is_sdev_device dev = true
  · cases cb with
    | none =>
      refine ⟨[⟨Call.blk_pre_runtime_resume, w.nr_pending⟩,
        ⟨Call.blk_post_runtime_resume 0, w.nr_pending⟩], ?_, ?_⟩
      · intro e he; simp at he; rcases he with rfl | rfl <;> rfl
      · simp [scsi_bus_resume_common, hs, sdev_resume_no_cb, pm_runtime_enable,
          pm_runtime_set_active, pm_runtime_disable, World.log]
    | some f =>
      rw [scsi_bus_resume_common_cb dev f w hs] at h ⊢
      by_cases he : f.body (w.log Call.blk_pre_runtime_resume) = 0
      · rw [if_pos he]
        refine ⟨[⟨Call.blk_pre_runtime_resume, w.nr_pending⟩, ⟨Call.cb f.fn 0, w.nr_pending⟩,
          ⟨Call.blk_post_runtime_resume 0, w.nr_pending⟩], ?_, ?_⟩
        · intro e he; simp at he; rcases he with rfl | rfl | rfl <;> rfl
        · simp
      · rw [if_neg he] at h
        exact absurd h he
  · refine ⟨[], by intro e he; simp at he, ?_⟩
    simp [scsi_bus_resume_common, hs, pm_runtime_enable, pm_runtime_set_active,
      pm_runtime_disable, World.log]

/-- An absent hook reads as a NULL callback pointer. -/
theorem pm_slot_of_absent (dev : device) (slot : dev_pm_ops → Option Hook)
    (h : hook_absent dev slot) : pm_slot (driver_pm dev) slot = none := by
  rcases h with h | ⟨drv, hd, hp⟩ | ⟨drv, ops, hd, hp, hsl⟩
  · simp [pm_slot, driver_pm, h]
  · simp [pm_slot, driver_pm, hd, hp]
  · simp [pm_slot, driver_pm, hd, hp, hsl]

/-- A trace whose callback calls are all guarded as calls of a NULL pointer has
no callback call. -/
theorem no_hook_of_guarded_none (n : Nat) (t : List Event) (h : hook_guarded none n t) :
    no_hook t := by
  intro e he fn ret hcall
  obtain ⟨pre, post, rfl⟩ := List.append_of_mem he
  obtain ⟨c, np⟩ := e
  simp only at hcall
  subst hcall
  obtain ⟨_, ⟨f, hf, _⟩, _⟩ := h pre post fn ret np rfl
  cases hf

/-- Function `scsi_bus_suspend_common` returns once the drain loop has enough
fuel to see the queue empty. -/
theorem scsi_bus_suspend_common_returns (env : Env) (k fuel : Nat) (dev : device)
    (cb : Option Hook) (w : World)
    (h0 : env.scsi_run_queue^[k] w.nr_pending = 0) (hk : k < fuel) :
    ∃ p, scsi_bus_suspend_common env fuel dev cb w = some p := by
  unfold scsi_bus_suspend_common
  by_cases hs : scsi_is_sdev_device dev = true
  · rw [if_pos hs]
    by_cases hp : pm_runtime_suspended w = true
    · rw [if_pos hp]; exact ⟨_, rfl⟩
    · rw [if_neg hp]
      obtain ⟨w', hw'⟩ := sdev_suspend_drain_terminates env k fuel w h0 hk
      exact ⟨sdev_suspend_common env cb w', by simp [sdev_suspend, hw']⟩
  · rw [if_neg hs]; exact ⟨_, rfl⟩

/-- Function `scsi_bus_suspend_common` with a NULL callback: no callback call,
and the result is 0 unless the pre-suspend step failed. -/
theorem scsi_bus_suspend_common_no_cb (env : Env) (fuel : Nat) (dev : device) (w : World)
    (r : Int) (w' : World)
    (h : scsi_bus_suspend_common env fuel dev none w = some (r, w')) :
    (∃ new, w'.trace = w.trace ++ new ∧ no_hook new) ∧
      ((∀ w0, env.blk_pre_runtime_suspend w0 = 0) → r = 0) := by
  constructor
  · obtain ⟨new, hnew, hg⟩ := scsi_bus_suspend_common_guarded env fuel dev none w r w' h
    exact ⟨new, hnew, no_hook_of_guarded_none 0 new hg⟩
  · intro hpre
    rcases scsi_bus_suspend_common_some env fuel dev none w r w' h with
      ⟨_, hr, _⟩ | ⟨_, _, k, _, _, _, hrw⟩
    · exact hr
    · rw [sdev_suspend_common_no_cb env _ (hpre _)] at hrw
      exact (Prod.mk.inj hrw).1

/-- Function `scsi_bus_resume_common` with a NULL callback returns 0 and makes
no callback call. -/
theorem scsi_bus_resume_common_no_cb (dev : device) (w : World) :
    (scsi_bus_resume_common dev none w).1 = 0 ∧
      ∃ new, (scsi_bus_resume_common dev none w).2.trace = w.trace ++ new ∧ no_hook new := by
  by_cases hs : scsi_is_sdev_device dev = true
  · refine ⟨by simp [scsi_bus_resume_common, hs, sdev_resume_no_cb],
      [⟨Call.blk_pre_runtime_resume, w.nr_pending⟩,
        ⟨Call.blk_post_runtime_resume 0, w.nr_pending⟩,
        ⟨Call.pm_runtime_disable, w.nr_pending⟩, ⟨Call.pm_runtime_set_active, w.nr_pending⟩,
        ⟨Call.pm_runtime_enable, w.nr_pending⟩], ?_, ?_⟩
    · simp [scsi_bus_resume_common, hs, sdev_resume_no_cb, pm_runtime_enable,
        pm_runtime_set_active, pm_runtime_disable, World.log]
    · intro e he fn ret
      simp at he
      rcases he with rfl | rfl | rfl | rfl | rfl <;> simp
  · refine ⟨by simp [scsi_bus_resume_common, hs],
      [⟨Call.pm_runtime_disable, w.nr_pending⟩, ⟨Call.pm_runtime_set_active, w.nr_pending⟩,
        ⟨Call.pm_runtime_enable, w.nr_pending⟩], ?_, ?_⟩
    · simp [scsi_bus_resume_common, hs, pm_runtime_enable, pm_runtime_set_active,
        pm_runtime_disable, World.log]
    · intro e he fn ret
      simp at he
      rcases he with rfl | rfl | rfl <;> simp

/-- A call of the Stop primitive does not force the cached power state. -/
theorem no_force_of_is_stop (t : List Event) (h : ∀ e ∈ t, e.call.is_stop = true) :
    no_force t := by
  intro e he
  have := h e he
  cases hc : e.call <;> simp [hc, Call.is_stop] at this <;> rfl

/-- A call of the Start primitive does not force the cached power state. -/
theorem no_force_of_is_start (t : List Event) (h : ∀ e ∈ t, e.call.is_start = true) :
    no_force t := by
  intro e he
  have := h e he
  cases hc : e.call <;> simp [hc, Call.is_start] at this <;> rfl

/-- The calls of `sdev_resume` are those of the Start primitive, and it changes
nothing of the state but the trace. -/
theorem sdev_resume_calls (cb : Option Hook) (w : World) :
    ∃ start, (∀ e ∈ start, e.call.is_start = true) ∧
      (∀ e ∈ start, ∀ fn ret, e.call = Call.cb fn ret → ∃ f, cb = some f ∧ f.fn = fn) ∧
      (sdev_resume cb w).2 = { w with trace := w.trace ++ start } := by
  cases cb with
  | none =>
    rw [sdev_resume_no_cb]
    refine ⟨_, ?_, ?_, rfl⟩
    · intro e he; simp at he; rcases he with rfl | rfl <;> rfl
    · intro e he fn ret hc; simp at he; rcases he with rfl | rfl <;> simp at hc
  | some f =>
    rw [sdev_resume_cb]
    refine ⟨_, ?_, ?_, rfl⟩
    · intro e he; simp at he; rcases he with rfl | rfl | rfl <;> rfl
    · intro e he fn ret hc
      simp at he
      rcases he with rfl | rfl | rfl <;> simp at hc
      exact ⟨f, rfl, hc.1⟩

/-- Function `scsi_bus_resume_common` when it fails: only the Start primitive's
calls were made, and the cached state and tracking flag are untouched. -/
theorem scsi_bus_resume_common_failure (dev : device) (cb : Option Hook) (w : World)
    (h : (scsi_bus_resume_common dev cb w).1 ≠ 0) :
    ∃ start, (∀ e ∈ start, e.call.is_start = true) ∧
      (scsi_bus_resume_common dev cb w).2 = { w with trace := w.trace ++ start } := by
  unfold scsi_bus_resume_common at h ⊢
  by_cases hs : scsi_is_sdev_device dev = true
  · simp only [hs, if_true] at h ⊢
    by_cases hr : (sdev_resume cb w).1 = 0
    · simp [hr] at h
    · obtain ⟨start, h1, _, h3⟩ := sdev_resume_calls cb w
      simp only [if_neg hr]
      exact ⟨start, h1, h3⟩
  · simp [hs] at h

/-- Function `scsi_bus_suspend`: what it has called when it returns.  The calls
of `scsi_bus_suspend_common`, followed by the forcing sequence exactly when the
result is 0. -/
theorem scsi_bus_suspend_some (env : Env) (fuel : Nat) (dev : device) (w : World)
    (r : Int) (w' : World) (h : scsi_bus_suspend env fuel dev w = some (r, w')) :
    ∃ w1, scsi_bus_suspend_common env fuel dev (pm_slot (driver_pm dev) dev_pm_ops.suspend) w
        = some (r, w1) ∧
      (r ≠ 0 → w' = w1) ∧
      (r = 0 → w' = ⟨w1.nr_pending, rpm_status.RPM_SUSPENDED, true, w1.trace ++
        [⟨Call.__pm_runtime_disable false, w1.nr_pending⟩,
          ⟨Call.pm_runtime_set_suspended, w1.nr_pending⟩,
          ⟨Call.pm_runtime_enable, w1.nr_pending⟩]⟩) := by
  unfold scsi_bus_suspend at h
  cases hc : scsi_bus_suspend_common env fuel dev
      (pm_slot (driver_pm dev) dev_pm_ops.suspend) w with
  | none => simp [hc] at h
  | some p =>
    obtain ⟨r1, w1⟩ := p
    simp only [hc] at h
    by_cases hr : r1 = 0
    · rw [if_pos hr] at h
      simp only [Option.some.injEq, Prod.mk.injEq] at h
      obtain ⟨h1, h2⟩ := h
      subst h1
      refine ⟨w1, rfl, fun hne => absurd hr hne, fun _ => ?_⟩
      rw [← h2]
      simp [pm_runtime_enable, pm_runtime_set_suspended, __pm_runtime_disable, World.log]
    · rw [if_neg hr] at h
      simp only [Option.some.injEq, Prod.mk.injEq] at h
      obtain ⟨h1, h2⟩ := h
      subst h1
      exact ⟨w1, rfl, fun _ => h2.symm, fun h0 => absurd h0 hr⟩

/-- Function `scsi_bus_suspend` when the suspend hook is absent: no callback
call, and the result is 0 unless the pre-suspend step failed. -/
theorem scsi_bus_suspend_no_cb (env : Env) (fuel : Nat) (dev : device) (w : World)
    (hcb : pm_slot (driver_pm dev) dev_pm_ops.suspend = none) (r : Int) (w' : World)
    (h : scsi_bus_suspend env fuel dev w = some (r, w')) :
    (∃ new, w'.trace = w.trace ++ new ∧ no_hook new) ∧
      ((∀ w0, env.blk_pre_runtime_suspend w0 = 0) → r = 0) := by
  obtain ⟨w1, hc, hne, heq⟩ := scsi_bus_suspend_some env fuel dev w r w' h
  rw [hcb] at hc
  obtain ⟨⟨new, hnew, hno⟩, hr⟩ := scsi_bus_suspend_common_no_cb env fuel dev w r w1 hc
  refine ⟨?_, hr⟩
  by_cases h0 : r = 0
  · refine ⟨new ++ [⟨Call.__pm_runtime_disable false, w1.nr_pending⟩,
      ⟨Call.pm_runtime_set_suspended, w1.nr_pending⟩,
      ⟨Call.pm_runtime_enable, w1.nr_pending⟩], by rw [heq h0]; simp [hnew], ?_⟩
    intro e he fn ret
    rcases List.mem_append.mp he with he | he
    · exact hno e he fn ret
    · simp at he
      rcases he with rfl | rfl | rfl <;> simp
  · exact ⟨new, by rw [hne h0, hnew], hno⟩

/-- Function `scsi_bus_suspend` returns once the drain loop has enough fuel to
see the queue empty. -/
theorem scsi_bus_suspend_returns (env : Env) (k fuel : Nat) (dev : device) (w : World)
    (h0 : env.scsi_run_queue^[k] w.nr_pending = 0) (hk : k < fuel) :
    ∃ p, scsi_bus_suspend env fuel dev w = some p := by
  obtain ⟨p, hp⟩ := scsi_bus_suspend_common_returns env k fuel dev
    (pm_slot (driver_pm dev) dev_pm_ops.suspend) w h0 hk
  unfold scsi_bus_suspend
  rw [hp]
  by_cases hr : p.1 = 0
  · exact ⟨(p.1, pm_runtime_enable (pm_runtime_set_suspended (__pm_runtime_disable false p.2))),
      by simp only [if_pos hr]⟩
  · exact ⟨p, by simp only [if_neg hr]⟩

/-- Function `scsi_bus_resume_common` on a node that is not a leaf device: the
forcing sequence alone, and 0. -/
theorem scsi_bus_resume_common_non_leaf (dev : device) (cb : Option Hook) (w : World)
    (hs : scsi_is_sdev_device dev = false) :
    scsi_bus_resume_common dev cb w =
      (0, ⟨w.nr_pending, rpm_status.RPM_ACTIVE, true, w.trace ++
        [⟨Call.pm_runtime_disable, w.nr_pending⟩, ⟨Call.pm_runtime_set_active, w.nr_pending⟩,
          ⟨Call.pm_runtime_enable, w.nr_pending⟩]⟩) := by
  simp [scsi_bus_resume_common, hs, pm_runtime_enable, pm_runtime_set_active,
    pm_runtime_disable, World.log]

/-- Function `scsi_bus_resume_common` on a leaf device with a NULL callback:
pre-resume, post-resume with 0, the forcing sequence, and 0. -/
theorem scsi_bus_resume_common_leaf_no_cb (dev : device) (w : World)
    (hs : scsi_is_sdev_device dev = true) :
    scsi_bus_resume_common dev none w =
      (0, ⟨w.nr_pending, rpm_status.RPM_ACTIVE, true, w.trace ++
        [⟨Call.blk_pre_runtime_resume, w.nr_pending⟩,
          ⟨Call.blk_post_runtime_resume 0, w.nr_pending⟩,
          ⟨Call.pm_runtime_disable, w.nr_pending⟩, ⟨Call.pm_runtime_set_active, w.nr_pending⟩,
          ⟨Call.pm_runtime_enable, w.nr_pending⟩]⟩) := by
  simp [scsi_bus_resume_common, hs, sdev_resume_no_cb, pm_runtime_enable,
    pm_runtime_set_active, pm_runtime_disable, World.log]

/-- Function `scsi_bus_resume_common` on a leaf device with a callback, when it
returns 0: pre-resume, the callback (which returned 0), post-resume with 0,
the forcing sequence. -/
theorem scsi_bus_resume_common_leaf_cb_success (dev : device) (f : Hook) (w : World)
    (hs : scsi_is_sdev_device dev = true)
    (h : (scsi_bus_resume_common dev (some f) w).1 = 0) :
    scsi_bus_resume_common dev (some f) w =
      (0, ⟨w.nr_pending, rpm_status.RPM_ACTIVE, true, w.trace ++
        [⟨Call.blk_pre_runtime_resume, w.nr_pending⟩, ⟨Call.cb f.fn 0, w.nr_pending⟩,
          ⟨Call.blk_post_runtime_resume 0, w.nr_pending⟩,
          ⟨Call.pm_runtime_disable, w.nr_pending⟩, ⟨Call.pm_runtime_set_active, w.nr_pending⟩,
          ⟨Call.pm_runtime_enable, w.nr_pending⟩]⟩) := by
  rw [scsi_bus_resume_common_cb dev f w hs] at h ⊢
  by_cases he : f.body (w.log Call.blk_pre_runtime_resume) = 0
  · rw [if_pos he]
  · rw [if_neg he] at h
    exact absurd h he

/-- The number of queue runs after which the pending count first is 0 is
unique. -/
theorem first_zero_unique (run : Nat → Nat) (n k k' : Nat)
    (h0 : run^[k] n = 0) (hmin : ∀ j, j < k → run^[j] n ≠ 0)
    (h0' : run^[k'] n = 0) (hmin' : ∀ j, j < k' → run^[j] n ≠ 0) : k' = k := by
  rcases Nat.lt_trichotomy k' k with hlt | heq | hgt
  · exact absurd h0' (hmin k' hlt)
  · exact heq
  · exact absurd h0 (hmin' k hgt)

/-- Function `sdev_suspend_common` with a NULL callback returns what the
pre-suspend step returned. -/
theorem sdev_suspend_common_no_cb_result (env : Env) (w : World) :
    (sdev_suspend_common env none w).1 = env.blk_pre_runtime_suspend w := by
  by_cases h : env.blk_pre_runtime_suspend w = 0
  · rw [sdev_suspend_common_no_cb env w h, h]
  · rw [sdev_suspend_common_refused env none w h]

/-- Function `scsi_bus_suspend_common` with a NULL callback, when it returns:
the result is 0 if the Stop primitive was skipped, and otherwise it is what the
one pre-suspend call, made on the drained queue, returned. -/
theorem scsi_bus_suspend_common_no_cb_result (env : Env) (fuel : Nat) (dev : device)
    (w : World) (r : Int) (w' : World)
    (h : scsi_bus_suspend_common env fuel dev none w = some (r, w')) :
    ((scsi_is_sdev_device dev = false ∨ pm_runtime_suspended w = true) → r = 0) ∧
    (scsi_is_sdev_device dev = true → pm_runtime_suspended w = false →
      ∃ k, k < fuel ∧ env.scsi_run_queue^[k] w.nr_pending = 0 ∧
        (∀ j, j < k → env.scsi_run_queue^[j] w.nr_pending ≠ 0) ∧
        r = env.blk_pre_runtime_suspend (drained env k w)) := by
  rcases scsi_bus_suspend_common_some env fuel dev none w r w' h with
    ⟨hskip, hr, _⟩ | ⟨hs, hp, k, hk, h0, hmin, hrw⟩
  · refine ⟨fun _ => hr, fun hs hp => ?_⟩
    rcases hskip with h1 | h1
    · rw [hs] at h1; cases h1
    · rw [hp] at h1; cases h1
  · refine ⟨fun hskip => ?_, fun _ _ => ⟨k, hk, h0, hmin, ?_⟩⟩
    · rcases hskip with h1 | h1
      · rw [hs] at h1; cases h1
      · rw [hp] at h1; cases h1
    · rw [← sdev_suspend_common_no_cb_result env (drained env k w), ← hrw]

/-- Function `scsi_bus_suspend_common` with a NULL callback returns 0, without a
callback call, when the one pre-suspend call made succeeds. -/
theorem scsi_bus_suspend_common_no_cb_success (env : Env) (k fuel : Nat) (dev : device)
    (w : World)
    (h0 : env.scsi_run_queue^[k] w.nr_pending = 0)
    (hmin : ∀ j, j < k → env.scsi_run_queue^[j] w.nr_pending ≠ 0) (hk : k < fuel)
    (hpre : env.blk_pre_runtime_suspend (drained env k w) = 0) :
    ∃ w', scsi_bus_suspend_common env fuel dev none w = some (0, w') ∧
      ∃ new, w'.trace = w.trace ++ new ∧ no_hook new := by
  obtain ⟨⟨r, w'⟩, hret⟩ := scsi_bus_suspend_common_returns env k fuel dev none w h0 hk
  obtain ⟨hnew, _⟩ := scsi_bus_suspend_common_no_cb env fuel dev w r w' hret
  obtain ⟨hskip, hleaf⟩ := scsi_bus_suspend_common_no_cb_result env fuel dev w r w' hret
  have hr : r = 0 := by
    by_cases hs : scsi_is_sdev_device dev = true
    · by_cases hp : pm_runtime_suspended w = true
      · exact hskip (Or.inr hp)
      · obtain ⟨k', _, h0', hmin', hrk⟩ := hleaf hs (by simpa using hp)
        rw [hrk, first_zero_unique _ _ k k' h0 hmin h0' hmin', hpre]
    · exact hskip (Or.inl (by simpa using hs))
  subst hr
  exact ⟨w', hret, hnew⟩

/-- The environment `env_busy` keeps the contract of the pre-suspend step. -/
theorem env_busy_refuses_busy : pre_suspend_refuses_busy env_busy := by
  intro w h
  by_contra hn
  simp [env_busy, hn] at h

/-! ## Claims -/

/-- C1: whenever the hook of a Suspend-class phase is invoked on a leaf device,
it is the hook of that phase's slot, the queue has `nr_pending == 0`, and
`blk_pre_runtime_suspend` has just been performed and has returned 0.  For
`scsi_bus_suspend`, `scsi_bus_freeze` and `scsi_bus_poweroff` the drain loop of
`sdev_suspend` has emptied the queue.  `scsi_bus_runtime_suspend` runs no loop
of its own: there the hook sees the pending count the pre-suspend step saw,
which is 0 because that step refuses a queue with requests pending. -/
theorem suspend_class_hook_guarded (env : Env) (fuel : Nat) (dev : device) (w : World) :
    (∀ r w', scsi_bus_suspend env fuel dev w = some (r, w') →
      ∃ new, w'.trace = w.trace ++ new ∧
        hook_guarded (pm_slot (driver_pm dev) dev_pm_ops.suspend) 0 new) ∧
    (∀ r w', scsi_bus_freeze env fuel dev w = some (r, w') →
      ∃ new, w'.trace = w.trace ++ new ∧
        hook_guarded (pm_slot (driver_pm dev) dev_pm_ops.freeze) 0 new) ∧
    (∀ r w', scsi_bus_poweroff env fuel dev w = some (r, w') →
      ∃ new, w'.trace = w.trace ++ new ∧
        hook_guarded (pm_slot (driver_pm dev) dev_pm_ops.poweroff) 0 new) ∧
    (pre_suspend_refuses_busy env →
      ∃ new, (scsi_bus_runtime_suspend env dev w).2.trace = w.trace ++ new ∧
        hook_guarded (pm_slot (driver_pm dev) dev_pm_ops.runtime_suspend) 0 new) ∧
    (∃ new, (scsi_bus_runtime_suspend env dev w).2.trace = w.trace ++ new ∧
      hook_guarded (pm_slot (driver_pm dev) dev_pm_ops.runtime_suspend) w.nr_pending new) := by
  have hrt : ∃ new, (scsi_bus_runtime_suspend env dev w).2.trace = w.trace ++ new ∧
      hook_guarded (pm_slot (driver_pm dev) dev_pm_ops.runtime_suspend) w.nr_pending new ∧
      ((∀ w0, env.blk_pre_runtime_suspend w0 = 0 → w0.nr_pending = 0) →
        hook_guarded (pm_slot (driver_pm dev) dev_pm_ops.runtime_suspend) 0 new) := by
    unfold scsi_bus_runtime_suspend
    by_cases hs : scsi_is_sdev_device dev = true
    · rw [if_pos hs]
      obtain ⟨tail, ht, hg⟩ := sdev_suspend_common_guarded env
        (pm_slot (driver_pm dev) dev_pm_ops.runtime_suspend) w
      refine ⟨tail, by rw [ht], hg, ?_⟩
      intro hbusy
      by_cases h0 : env.blk_pre_runtime_suspend w = 0
      · rw [← hbusy w h0]; exact hg
      · rw [sdev_suspend_common_refused env _ w h0] at ht
        have : tail = [⟨Call.blk_pre_runtime_suspend (env.blk_pre_runtime_suspend w),
            w.nr_pending⟩] := by
          have := congrArg World.trace ht
          simpa using this.symm
        rw [this]
        apply hook_guarded_of_no_hook
        intro e he fn ret
        simp only [List.mem_singleton] at he
        subst he
        simp
    · rw [if_neg hs]
      exact ⟨[], by simp, hook_guarded_of_no_hook _ _ _ (by intro e he; simp at he),
        fun _ => hook_guarded_of_no_hook _ _ _ (by intro e he; simp at he)⟩
  obtain ⟨newrt, hrt1, hrt2, hrt3⟩ := hrt
  refine ⟨?_, ?_, ?_, fun hbusy => ⟨newrt, hrt1, hrt3 hbusy⟩, ⟨newrt, hrt1, hrt2⟩⟩
  · intro r w' h
    unfold scsi_bus_suspend at h
    cases hc : scsi_bus_suspend_common env fuel dev
        (pm_slot (driver_pm dev) dev_pm_ops.suspend) w with
    | none => simp [hc] at h
    | some p =>
      obtain ⟨r1, w1⟩ := p
      obtain ⟨new, hnew, hg⟩ := scsi_bus_suspend_common_guarded env fuel dev _ w r1 w1 hc
      simp only [hc] at h
      by_cases hr : r1 = 0
      · rw [if_pos hr] at h
        simp only [Option.some.injEq, Prod.mk.injEq] at h
        refine ⟨new ++ [⟨Call.__pm_runtime_disable false, w1.nr_pending⟩,
          ⟨Call.pm_runtime_set_suspended, w1.nr_pending⟩,
          ⟨Call.pm_runtime_enable, w1.nr_pending⟩], ?_, ?_⟩
        · rw [← h.2]
          simp [pm_runtime_enable, pm_runtime_set_suspended, __pm_runtime_disable, World.log,
            hnew]
        · apply hook_guarded_append_right _ _ _ _ hg
          intro e he fn ret
          simp only [List.mem_cons, List.mem_singleton, List.not_mem_nil, or_false] at he
          rcases he with rfl | rfl | rfl <;> simp
      · rw [if_neg hr] at h
        simp only [Option.some.injEq, Prod.mk.injEq] at h
        exact ⟨new, by rw [← h.2, hnew], hg⟩
  · intro r w' h
    exact scsi_bus_suspend_common_guarded env fuel dev _ w r w' h
  · intro r w' h
    exact scsi_bus_suspend_common_guarded env fuel dev _ w r w' h

/-- Witness for C1, with a pre-suspend step that refuses a busy queue.  A leaf
device with three requests pending is suspended: the suspend hook is called
once, with the queue empty, after the pre-suspend step.  A leaf device with
an empty queue is runtime-suspended: the runtime_suspend hook is called after
the pre-suspend step, with nothing pending. -/
theorem suspend_class_hook_guarded_witness :
    (∃ new,
      ([⟨Call.scsi_run_queue, 3⟩, ⟨Call.scsi_run_queue, 2⟩, ⟨Call.scsi_run_queue, 1⟩,
        ⟨Call.blk_pre_runtime_suspend 0, 0⟩, ⟨Call.cb 1 0, 0⟩,
        ⟨Call.blk_post_runtime_suspend 0, 0⟩, ⟨Call.__pm_runtime_disable false, 0⟩,
        ⟨Call.pm_runtime_set_suspended, 0⟩, ⟨Call.pm_runtime_enable, 0⟩] : List Event)
        = [] ++ new ∧
      hook_guarded (some (hook_ret 1 0)) 0 new) ∧
    (∃ new,
      ([⟨Call.blk_pre_runtime_suspend 0, 0⟩, ⟨Call.cb 6 0, 0⟩,
        ⟨Call.blk_post_runtime_suspend 0, 0⟩] : List Event) = [] ++ new ∧
      hook_guarded (some (hook_ret 6 0)) 0 new) :=
  ⟨(suspend_class_hook_guarded env_busy 4 sd_dev (world_init 3 rpm_status.RPM_ACTIVE)).1 0
    ⟨0, rpm_status.RPM_SUSPENDED, true,
      [⟨Call.scsi_run_queue, 3⟩, ⟨Call.scsi_run_queue, 2⟩, ⟨Call.scsi_run_queue, 1⟩,
        ⟨Call.blk_pre_runtime_suspend 0, 0⟩, ⟨Call.cb 1 0, 0⟩,
        ⟨Call.blk_post_runtime_suspend 0, 0⟩, ⟨Call.__pm_runtime_disable false, 0⟩,
        ⟨Call.pm_runtime_set_suspended, 0⟩, ⟨Call.pm_runtime_enable, 0⟩]⟩ (by decide),
    (suspend_class_hook_guarded env_busy 0 sd_dev (world_init 0 rpm_status.RPM_ACTIVE)).2.2.2.1
      env_busy_refuses_busy⟩

/-- C2 (amended): `scsi_bus_runtime_suspend` does not consult the cached power
state.  On a leaf device in any cached state, SUSPENDED included, it calls
`blk_pre_runtime_suspend`; if that fails it returns the error; otherwise it
invokes the runtime_suspend hook when there is one, reports the outcome to
`blk_post_runtime_suspend` and returns it (0 without a hook). -/
theorem runtime_suspend_ignores_cached_state (env : Env) (dev : device) (w : World)
    (hs : scsi_is_sdev_device dev = true) :
    (env.blk_pre_runtime_suspend w ≠ 0 →
      scsi_bus_runtime_suspend env dev w =
        (env.blk_pre_runtime_suspend w,
          { w with trace := w.trace ++
              [⟨Call.blk_pre_runtime_suspend (env.blk_pre_runtime_suspend w), w.nr_pending⟩] })) ∧
    (env.blk_pre_runtime_suspend w = 0 →
      pm_slot (driver_pm dev) dev_pm_ops.runtime_suspend = none →
      scsi_bus_runtime_suspend env dev w =
        (0, { w with trace := w.trace ++
              [⟨Call.blk_pre_runtime_suspend 0, w.nr_pending⟩,
               ⟨Call.blk_post_runtime_suspend 0, w.nr_pending⟩] })) ∧
    (env.blk_pre_runtime_suspend w = 0 →
      ∀ f, pm_slot (driver_pm dev) dev_pm_ops.runtime_suspend = some f →
      scsi_bus_runtime_suspend env dev w =
        (f.body (w.log (Call.blk_pre_runtime_suspend 0)),
          { w with trace := w.trace ++
              [⟨Call.blk_pre_runtime_suspend 0, w.nr_pending⟩,
               ⟨Call.cb f.fn (f.body (w.log (Call.blk_pre_runtime_suspend 0))), w.nr_pending⟩,
               ⟨Call.blk_post_runtime_suspend (f.body (w.log (Call.blk_pre_runtime_suspend 0))),
                 w.nr_pending⟩] })) := by
  unfold scsi_bus_runtime_suspend
  rw [if_pos hs]
  refine ⟨fun h => sdev_suspend_common_refused env _ w h, fun h hnone => ?_, fun h f hf => ?_⟩
  · rw [hnone]; exact sdev_suspend_common_no_cb env w h
  · rw [hf]; exact sdev_suspend_common_cb env f w h

/-- Witness for C2: a leaf device cached SUSPENDED with a succeeding
runtime_suspend hook; the queue is called and the hook runs. -/
theorem runtime_suspend_ignores_cached_state_witness :
    scsi_bus_runtime_suspend env_ok sd_dev (world_init 0 rpm_status.RPM_SUSPENDED) =
      (0, ⟨0, rpm_status.RPM_SUSPENDED, true,
        [⟨Call.blk_pre_runtime_suspend 0, 0⟩, ⟨Call.cb 6 0, 0⟩,
          ⟨Call.blk_post_runtime_suspend 0, 0⟩]⟩) :=
  (runtime_suspend_ignores_cached_state env_ok sd_dev (world_init 0 rpm_status.RPM_SUSPENDED)
    (by decide)).2.2 (by decide) (hook_ret 6 0) rfl

/-- C2 (as stated) fails: on a leaf device cached SUSPENDED whose runtime_suspend
hook fails with -5, `scsi_bus_runtime_suspend` calls the queue, invokes the hook
and returns -5. -/
theorem runtime_suspend_on_suspended_runs_hook :
    pm_runtime_suspended (world_init 0 rpm_status.RPM_SUSPENDED) = true ∧
    scsi_bus_runtime_suspend env_ok eio_dev (world_init 0 rpm_status.RPM_SUSPENDED) =
      (-5, ⟨0, rpm_status.RPM_SUSPENDED, true,
        [⟨Call.blk_pre_runtime_suspend 0, 0⟩, ⟨Call.cb 6 (-5), 0⟩,
          ⟨Call.blk_post_runtime_suspend (-5), 0⟩]⟩) := by
  decide

/-- C3 (amended): whenever `scsi_bus_suspend` returns 0, its last three calls
are `__pm_runtime_disable(dev, false)`, `pm_runtime_set_suspended`,
`pm_runtime_enable` and the cached state is SUSPENDED.  `scsi_bus_freeze` and
`scsi_bus_poweroff` never force the cached state: whatever they return, they
have called only the queue and the hook, and the cached state and the tracking
flag are what they were on entry. -/
theorem suspend_forces_suspended_freeze_poweroff_do_not (env : Env) (fuel : Nat)
    (dev : device) (w : World) :
    (∀ w', scsi_bus_suspend env fuel dev w = some (0, w') →
      w'.runtime_status = rpm_status.RPM_SUSPENDED ∧
      ∃ mid np, (∀ e ∈ mid, e.call.is_stop = true) ∧
        w'.trace = w.trace ++ mid ++
          [⟨Call.__pm_runtime_disable false, np⟩, ⟨Call.pm_runtime_set_suspended, np⟩,
            ⟨Call.pm_runtime_enable, np⟩]) ∧
    (∀ r w', scsi_bus_freeze env fuel dev w = some (r, w') →
      w'.runtime_status = w.runtime_status ∧ w'.runtime_enabled = w.runtime_enabled ∧
      ∃ new, w'.trace = w.trace ++ new ∧ ∀ e ∈ new, e.call.is_stop = true) ∧
    (∀ r w', scsi_bus_poweroff env fuel dev w = some (r, w') →
      w'.runtime_status = w.runtime_status ∧ w'.runtime_enabled = w.runtime_enabled ∧
      ∃ new, w'.trace = w.trace ++ new ∧ ∀ e ∈ new, e.call.is_stop = true) := by
  refine ⟨?_, fun r w' h => scsi_bus_suspend_common_frame env fuel dev _ w r w' h,
    fun r w' h => scsi_bus_suspend_common_frame env fuel dev _ w r w' h⟩
  intro w' h
  unfold scsi_bus_suspend at h
  cases hc : scsi_bus_suspend_common env fuel dev
      (pm_slot (driver_pm dev) dev_pm_ops.suspend) w with
  | none => simp [hc] at h
  | some p =>
    obtain ⟨r1, w1⟩ := p
    obtain ⟨_, _, new, hnew, hstop⟩ := scsi_bus_suspend_common_frame env fuel dev _ w r1 w1 hc
    simp only [hc] at h
    by_cases hr : r1 = 0
    · rw [if_pos hr] at h
      simp only [Option.some.injEq, Prod.mk.injEq] at h
      rw [← h.2]
      refine ⟨rfl, new, w1.nr_pending, hstop, ?_⟩
      simp [pm_runtime_enable, pm_runtime_set_suspended, __pm_runtime_disable, World.log, hnew]
    · rw [if_neg hr] at h
      simp only [Option.some.injEq, Prod.mk.injEq] at h
      exact absurd h.1 hr

/-- Witness for C3: a successful `scsi_bus_suspend` of a leaf device with one
request pending ends with the forcing sequence. -/
theorem suspend_forces_suspended_freeze_poweroff_do_not_witness :
    rpm_status.RPM_SUSPENDED = rpm_status.RPM_SUSPENDED ∧
    ∃ mid np, (∀ e ∈ mid, e.call.is_stop = true) ∧
      ([⟨Call.scsi_run_queue, 1⟩, ⟨Call.blk_pre_runtime_suspend 0, 0⟩, ⟨Call.cb 1 0, 0⟩,
        ⟨Call.blk_post_runtime_suspend 0, 0⟩, ⟨Call.__pm_runtime_disable false, 0⟩,
        ⟨Call.pm_runtime_set_suspended, 0⟩, ⟨Call.pm_runtime_enable, 0⟩] : List Event) =
        [] ++ mid ++
          [⟨Call.__pm_runtime_disable false, np⟩, ⟨Call.pm_runtime_set_suspended, np⟩,
            ⟨Call.pm_runtime_enable, np⟩] :=
  (suspend_forces_suspended_freeze_poweroff_do_not env_ok 2 sd_dev
    (world_init 1 rpm_status.RPM_ACTIVE)).1
    ⟨0, rpm_status.RPM_SUSPENDED, true,
      [⟨Call.scsi_run_queue, 1⟩, ⟨Call.blk_pre_runtime_suspend 0, 0⟩, ⟨Call.cb 1 0, 0⟩,
        ⟨Call.blk_post_runtime_suspend 0, 0⟩, ⟨Call.__pm_runtime_disable false, 0⟩,
        ⟨Call.pm_runtime_set_suspended, 0⟩, ⟨Call.pm_runtime_enable, 0⟩]⟩ (by decide)

/-- C3 (as stated) fails for Freeze and Poweroff: on an ACTIVE leaf device both
return 0 having called only the queue and the hook; `pm_runtime_set_suspended`
is not called and the cached state is still ACTIVE. -/
theorem freeze_poweroff_succeed_without_forcing :
    scsi_bus_freeze env_ok 1 sd_dev (world_init 0 rpm_status.RPM_ACTIVE) =
      some (0, ⟨0, rpm_status.RPM_ACTIVE, true,
        [⟨Call.blk_pre_runtime_suspend 0, 0⟩, ⟨Call.cb 2 0, 0⟩,
          ⟨Call.blk_post_runtime_suspend 0, 0⟩]⟩) ∧
    scsi_bus_poweroff env_ok 1 sd_dev (world_init 0 rpm_status.RPM_ACTIVE) =
      some (0, ⟨0, rpm_status.RPM_ACTIVE, true,
        [⟨Call.blk_pre_runtime_suspend 0, 0⟩, ⟨Call.cb 4 0, 0⟩,
          ⟨Call.blk_post_runtime_suspend 0, 0⟩]⟩) := by
  decide


/-- C4: a leaf device, not cached SUSPENDED, whose freeze hook `f` returns `e`
(any value, a non-zero error in particular), on a queue that is empty after `k`
runs and whose pre-suspend step succeeds.  With fuel for the loop,
`scsi_bus_freeze` returns exactly `e`; its calls are the `k` queue runs, `blk_pre_runtime_suspend` (returning 0), then the
hook, then `blk_post_runtime_suspend(e)`, and nothing else; the cached power
state and the tracking flag are unchanged. -/
theorem freeze_hook_error (env : Env) (k fuel : Nat) (dev : device) (f : Hook) (e : Int)
    (w : World)
    (hs : scsi_is_sdev_device dev = true) (hp : pm_runtime_suspended w = false)
    (hf : pm_slot (driver_pm dev) dev_pm_ops.freeze = some f)
    (h0 : env.scsi_run_queue^[k] w.nr_pending = 0)
    (hmin : ∀ j, j < k → env.scsi_run_queue^[j] w.nr_pending ≠ 0) (hk : k < fuel)
    (hpre : env.blk_pre_runtime_suspend (drained env k w) = 0)
    (hret : f.body ((drained env k w).log (Call.blk_pre_runtime_suspend 0)) = e) :
    scsi_bus_freeze env fuel dev w =
      some (e, ⟨0, w.runtime_status, w.runtime_enabled,
        w.trace ++ drain_trace env.scsi_run_queue k w.nr_pending ++
          [⟨Call.blk_pre_runtime_suspend 0, 0⟩, ⟨Call.cb f.fn e, 0⟩,
            ⟨Call.blk_post_runtime_suspend e, 0⟩]⟩) := by
  unfold scsi_bus_freeze
  rw [hf, scsi_bus_suspend_common_leaf env k fuel dev _ w hs hp h0 hmin hk,
    sdev_suspend_common_cb env f _ hpre, hret]
  simp [drained]

/-- Witness for C4: two requests pending, freeze hook failing with -5. -/
theorem freeze_hook_error_witness :
    scsi_bus_freeze env_ok 3 eio_dev (world_init 2 rpm_status.RPM_ACTIVE) =
      some (-5, ⟨0, rpm_status.RPM_ACTIVE, true,
        [] ++ drain_trace env_ok.scsi_run_queue 2 2 ++
          [⟨Call.blk_pre_runtime_suspend 0, 0⟩, ⟨Call.cb 2 (-5), 0⟩,
            ⟨Call.blk_post_runtime_suspend (-5), 0⟩]⟩) :=
  freeze_hook_error env_ok 2 3 eio_dev (hook_ret 2 (-5)) (-5)
    (world_init 2 rpm_status.RPM_ACTIVE) (by decide) (by decide) rfl (by decide)
    (by decide) (by decide) (by decide) (by decide)


/-- C5: on a leaf device whose thaw (respectively restore) slot holds the hook
`f`, `scsi_bus_thaw` (respectively `scsi_bus_restore`) calls
`blk_pre_runtime_resume`, then `f`, then `blk_post_runtime_resume` once with the
value `f` returned, whatever that value is.  When `f` fails with `e`, nothing
else is called, `e` is returned, and the cached state is not forced; when `f`
returns 0 the forcing sequence follows. -/
theorem thaw_restore_post_resume_once (dev : device) (w : World)
    (hs : scsi_is_sdev_device dev = true) :
    (∀ f, pm_slot (driver_pm dev) dev_pm_ops.thaw = some f →
      scsi_bus_thaw dev w =
        if f.body (w.log Call.blk_pre_runtime_resume) = 0 then
          (0, ⟨w.nr_pending, rpm_status.RPM_ACTIVE, true, w.trace ++
            [⟨Call.blk_pre_runtime_resume, w.nr_pending⟩, ⟨Call.cb f.fn 0, w.nr_pending⟩,
              ⟨Call.blk_post_runtime_resume 0, w.nr_pending⟩,
              ⟨Call.pm_runtime_disable, w.nr_pending⟩,
              ⟨Call.pm_runtime_set_active, w.nr_pending⟩,
              ⟨Call.pm_runtime_enable, w.nr_pending⟩]⟩)
        else
          (f.body (w.log Call.blk_pre_runtime_resume),
            ⟨w.nr_pending, w.runtime_status, w.runtime_enabled, w.trace ++
              [⟨Call.blk_pre_runtime_resume, w.nr_pending⟩,
                ⟨Call.cb f.fn (f.body (w.log Call.blk_pre_runtime_resume)), w.nr_pending⟩,
                ⟨Call.blk_post_runtime_resume (f.body (w.log Call.blk_pre_runtime_resume)),
                  w.nr_pending⟩]⟩)) ∧
    (∀ f, pm_slot (driver_pm dev) dev_pm_ops.restore = some f →
      scsi_bus_restore dev w =
        if f.body (w.log Call.blk_pre_runtime_resume) = 0 then
          (0, ⟨w.nr_pending, rpm_status.RPM_ACTIVE, true, w.trace ++
            [⟨Call.blk_pre_runtime_resume, w.nr_pending⟩, ⟨Call.cb f.fn 0, w.nr_pending⟩,
              ⟨Call.blk_post_runtime_resume 0, w.nr_pending⟩,
              ⟨Call.pm_runtime_disable, w.nr_pending⟩,
              ⟨Call.pm_runtime_set_active, w.nr_pending⟩,
              ⟨Call.pm_runtime_enable, w.nr_pending⟩]⟩)
        else
          (f.body (w.log Call.blk_pre_runtime_resume),
            ⟨w.nr_pending, w.runtime_status, w.runtime_enabled, w.trace ++
              [⟨Call.blk_pre_runtime_resume, w.nr_pending⟩,
                ⟨Call.cb f.fn (f.body (w.log Call.blk_pre_runtime_resume)), w.nr_pending⟩,
                ⟨Call.blk_post_runtime_resume (f.body (w.log Call.blk_pre_runtime_resume)),
                  w.nr_pending⟩]⟩)) := by
  constructor
  · intro f hf
    unfold scsi_bus_thaw
    rw [hf]
    exact scsi_bus_resume_common_cb dev f w hs
  · intro f hf
    unfold scsi_bus_restore
    rw [hf]
    exact scsi_bus_resume_common_cb dev f w hs

/-- Witness for C5: a thaw hook failing with -5 on a leaf device cached
SUSPENDED; post-resume is called with -5 and the state stays SUSPENDED. -/
theorem thaw_restore_post_resume_once_witness :
    scsi_bus_thaw eio_dev (world_init 0 rpm_status.RPM_SUSPENDED) =
      (-5, ⟨0, rpm_status.RPM_SUSPENDED, true,
        [⟨Call.blk_pre_runtime_resume, 0⟩, ⟨Call.cb 3 (-5), 0⟩,
          ⟨Call.blk_post_runtime_resume (-5), 0⟩]⟩) :=
  (thaw_restore_post_resume_once eio_dev (world_init 0 rpm_status.RPM_SUSPENDED)
    (by decide)).1 (hook_ret 3 (-5)) rfl

/-- C6: whenever `scsi_bus_thaw` or `scsi_bus_restore` returns 0, its calls are
those of the Start primitive followed by exactly `pm_runtime_disable`,
`pm_runtime_set_active`, `pm_runtime_enable`, in that order, and the cached
state is then ACTIVE with tracking enabled.  On a leaf device the Start
primitive's calls are `blk_pre_runtime_resume`, the hook of the slot when
there is one (it returned 0), and `blk_post_runtime_resume(0)`; on a node that
is not a leaf device there are none. -/
theorem thaw_restore_success_forces_active (dev : device) (w : World) :
    (scsi_is_sdev_device dev = false →
      scsi_bus_thaw dev w =
        (0, ⟨w.nr_pending, rpm_status.RPM_ACTIVE, true, w.trace ++
          [⟨Call.pm_runtime_disable, w.nr_pending⟩, ⟨Call.pm_runtime_set_active, w.nr_pending⟩,
            ⟨Call.pm_runtime_enable, w.nr_pending⟩]⟩) ∧
      scsi_bus_restore dev w =
        (0, ⟨w.nr_pending, rpm_status.RPM_ACTIVE, true, w.trace ++
          [⟨Call.pm_runtime_disable, w.nr_pending⟩, ⟨Call.pm_runtime_set_active, w.nr_pending⟩,
            ⟨Call.pm_runtime_enable, w.nr_pending⟩]⟩)) ∧
    (scsi_is_sdev_device dev = true →
      (pm_slot (driver_pm dev) dev_pm_ops.thaw = none →
        scsi_bus_thaw dev w =
          (0, ⟨w.nr_pending, rpm_status.RPM_ACTIVE, true, w.trace ++
            [⟨Call.blk_pre_runtime_resume, w.nr_pending⟩,
              ⟨Call.blk_post_runtime_resume 0, w.nr_pending⟩,
              ⟨Call.pm_runtime_disable, w.nr_pending⟩,
              ⟨Call.pm_runtime_set_active, w.nr_pending⟩,
              ⟨Call.pm_runtime_enable, w.nr_pending⟩]⟩)) ∧
      (∀ f, pm_slot (driver_pm dev) dev_pm_ops.thaw = some f → (scsi_bus_thaw dev w).1 = 0 →
        scsi_bus_thaw dev w =
          (0, ⟨w.nr_pending, rpm_status.RPM_ACTIVE, true, w.trace ++
            [⟨Call.blk_pre_runtime_resume, w.nr_pending⟩, ⟨Call.cb f.fn 0, w.nr_pending⟩,
              ⟨Call.blk_post_runtime_resume 0, w.nr_pending⟩,
              ⟨Call.pm_runtime_disable, w.nr_pending⟩,
              ⟨Call.pm_runtime_set_active, w.nr_pending⟩,
              ⟨Call.pm_runtime_enable, w.nr_pending⟩]⟩)) ∧
      (pm_slot (driver_pm dev) dev_pm_ops.restore = none →
        scsi_bus_restore dev w =
          (0, ⟨w.nr_pending, rpm_status.RPM_ACTIVE, true, w.trace ++
            [⟨Call.blk_pre_runtime_resume, w.nr_pending⟩,
              ⟨Call.blk_post_runtime_resume 0, w.nr_pending⟩,
              ⟨Call.pm_runtime_disable, w.nr_pending⟩,
              ⟨Call.pm_runtime_set_active, w.nr_pending⟩,
              ⟨Call.pm_runtime_enable, w.nr_pending⟩]⟩)) ∧
      (∀ f, pm_slot (driver_pm dev) dev_pm_ops.restore = some f →
        (scsi_bus_restore dev w).1 = 0 →
        scsi_bus_restore dev w =
          (0, ⟨w.nr_pending, rpm_status.RPM_ACTIVE, true, w.trace ++
            [⟨Call.blk_pre_runtime_resume, w.nr_pending⟩, ⟨Call.cb f.fn 0, w.nr_pending⟩,
              ⟨Call.blk_post_runtime_resume 0, w.nr_pending⟩,
              ⟨Call.pm_runtime_disable, w.nr_pending⟩,
              ⟨Call.pm_runtime_set_active, w.nr_pending⟩,
              ⟨Call.pm_runtime_enable, w.nr_pending⟩]⟩))) := by
  refine ⟨fun hs => ⟨scsi_bus_resume_common_non_leaf dev _ w hs,
    scsi_bus_resume_common_non_leaf dev _ w hs⟩, fun hs => ⟨?_, ?_, ?_, ?_⟩⟩
  · intro hcb
    unfold scsi_bus_thaw
    rw [hcb]
    exact scsi_bus_resume_common_leaf_no_cb dev w hs
  · intro f hcb h
    unfold scsi_bus_thaw at h ⊢
    rw [hcb] at h ⊢
    exact scsi_bus_resume_common_leaf_cb_success dev f w hs h
  · intro hcb
    unfold scsi_bus_restore
    rw [hcb]
    exact scsi_bus_resume_common_leaf_no_cb dev w hs
  · intro f hcb h
    unfold scsi_bus_restore at h ⊢
    rw [hcb] at h ⊢
    exact scsi_bus_resume_common_leaf_cb_success dev f w hs h

/-- Witness for C6: a successful restore of a leaf device cached SUSPENDED whose
restore hook returns 0, and a thaw of a leaf device with no driver bound. -/
theorem thaw_restore_success_forces_active_witness :
    scsi_bus_restore sd_dev (world_init 0 rpm_status.RPM_SUSPENDED) =
      (0, ⟨0, rpm_status.RPM_ACTIVE, true, [] ++
        [⟨Call.blk_pre_runtime_resume, 0⟩, ⟨Call.cb 5 0, 0⟩,
          ⟨Call.blk_post_runtime_resume 0, 0⟩, ⟨Call.pm_runtime_disable, 0⟩,
          ⟨Call.pm_runtime_set_active, 0⟩, ⟨Call.pm_runtime_enable, 0⟩]⟩) ∧
    scsi_bus_thaw unbound_dev (world_init 0 rpm_status.RPM_SUSPENDED) =
      (0, ⟨0, rpm_status.RPM_ACTIVE, true, [] ++
        [⟨Call.blk_pre_runtime_resume, 0⟩, ⟨Call.blk_post_runtime_resume 0, 0⟩,
          ⟨Call.pm_runtime_disable, 0⟩, ⟨Call.pm_runtime_set_active, 0⟩,
          ⟨Call.pm_runtime_enable, 0⟩]⟩) :=
  ⟨((thaw_restore_success_forces_active sd_dev (world_init 0 rpm_status.RPM_SUSPENDED)).2
      (by decide)).2.2.2 (hook_ret 5 0) rfl (by decide),
    ((thaw_restore_success_forces_active unbound_dev
      (world_init 0 rpm_status.RPM_SUSPENDED)).2 (by decide)).1 rfl⟩

/-- C7 (amended): on any device `scsi_bus_resume` issues exactly one call,
`pm_request_resume`, and returns what that call returned; it calls neither the
queue nor a driver hook and does not force the cached power state. -/
theorem bus_resume_only_requests_resume (env : Env) (dev : device) (w : World) :
    scsi_bus_resume env dev w =
      (env.pm_request_resume w,
        ⟨w.nr_pending, w.runtime_status, w.runtime_enabled,
          w.trace ++ [⟨Call.pm_request_resume (env.pm_request_resume w), w.nr_pending⟩]⟩) := by
  simp [scsi_bus_resume, pm_request_resume, World.log]

/-- C7 (as stated) fails: when the framework answers the resume request with
-5, `scsi_bus_resume` returns -5, not success. -/
theorem bus_resume_propagates_request_error :
    scsi_bus_resume env_pm_eio sd_dev (world_init 0 rpm_status.RPM_SUSPENDED) =
      (-5, ⟨0, rpm_status.RPM_SUSPENDED, true, [⟨Call.pm_request_resume (-5), 0⟩]⟩) ∧
    (scsi_bus_resume env_pm_eio sd_dev (world_init 0 rpm_status.RPM_SUSPENDED)).1 ≠ 0 := by
  decide

/-- C8: `scsi_autopm_get_device` and `scsi_autopm_get_host`, for every result
`r` of `pm_runtime_get_sync`.  If `r = -EACCES`: no release, 0 returned.  If
`r < 0` and `r ≠ -EACCES`: one `pm_runtime_put_sync`, `r` returned.  If
`0 ≤ r`: no release, 0 returned.  The value returned is never positive and
never `-EACCES`. -/
theorem autopm_get_failure_contract (env : Env) (w : World) :
    (env.pm_runtime_get_sync w = -EACCES →
      scsi_autopm_get_device env w =
        (0, ⟨w.nr_pending, w.runtime_status, w.runtime_enabled,
          w.trace ++ [⟨Call.pm_runtime_get_sync (-EACCES), w.nr_pending⟩]⟩) ∧
      scsi_autopm_get_host env w =
        (0, ⟨w.nr_pending, w.runtime_status, w.runtime_enabled,
          w.trace ++ [⟨Call.pm_runtime_get_sync (-EACCES), w.nr_pending⟩]⟩)) ∧
    (env.pm_runtime_get_sync w < 0 → env.pm_runtime_get_sync w ≠ -EACCES →
      scsi_autopm_get_device env w =
        (env.pm_runtime_get_sync w, ⟨w.nr_pending, w.runtime_status, w.runtime_enabled,
          w.trace ++ [⟨Call.pm_runtime_get_sync (env.pm_runtime_get_sync w), w.nr_pending⟩,
            ⟨Call.pm_runtime_put_sync, w.nr_pending⟩]⟩) ∧
      scsi_autopm_get_host env w =
        (env.pm_runtime_get_sync w, ⟨w.nr_pending, w.runtime_status, w.runtime_enabled,
          w.trace ++ [⟨Call.pm_runtime_get_sync (env.pm_runtime_get_sync w), w.nr_pending⟩,
            ⟨Call.pm_runtime_put_sync, w.nr_pending⟩]⟩)) ∧
    (0 ≤ env.pm_runtime_get_sync w →
      scsi_autopm_get_device env w =
        (0, ⟨w.nr_pending, w.runtime_status, w.runtime_enabled,
          w.trace ++ [⟨Call.pm_runtime_get_sync (env.pm_runtime_get_sync w), w.nr_pending⟩]⟩) ∧
      scsi_autopm_get_host env w =
        (0, ⟨w.nr_pending, w.runtime_status, w.runtime_enabled,
          w.trace ++ [⟨Call.pm_runtime_get_sync (env.pm_runtime_get_sync w), w.nr_pending⟩]⟩)) ∧
    (scsi_autopm_get_device env w).1 ≤ 0 ∧ (scsi_autopm_get_device env w).1 ≠ -EACCES ∧
    (scsi_autopm_get_host env w).1 ≤ 0 ∧ (scsi_autopm_get_host env w).1 ≠ -EACCES := by
  unfold scsi_autopm_get_device scsi_autopm_get_host pm_runtime_get_sync pm_runtime_put_sync
  simp only [World.log]
  generalize env.pm_runtime_get_sync w = r
  refine ⟨?_, ?_, ?_, ?_⟩
  · intro h
    subst h
    simp
  · intro h1 h2
    simp [h1, h2]
  · intro h
    have : ¬ (r < 0) := by omega
    simp [this]
  · by_cases h : r < 0 ∧ r ≠ -EACCES
    · simp only [if_pos h]
      exact ⟨by omega, h.2, by omega, h.2⟩
    · simp only [if_neg h]
      simp [EACCES]

/-- Witness for C8: a synchronous get failing with -5 on a device, then with
`-EACCES`. -/
theorem autopm_get_failure_contract_witness :
    (scsi_autopm_get_device env_pm_eio (world_init 0 rpm_status.RPM_SUSPENDED) =
        (-5, ⟨0, rpm_status.RPM_SUSPENDED, true,
          [⟨Call.pm_runtime_get_sync (-5), 0⟩, ⟨Call.pm_runtime_put_sync, 0⟩]⟩) ∧
      scsi_autopm_get_host env_pm_eio (world_init 0 rpm_status.RPM_SUSPENDED) =
        (-5, ⟨0, rpm_status.RPM_SUSPENDED, true,
          [⟨Call.pm_runtime_get_sync (-5), 0⟩, ⟨Call.pm_runtime_put_sync, 0⟩]⟩)) ∧
    (scsi_autopm_get_device env_pm_eacces (world_init 0 rpm_status.RPM_SUSPENDED) =
        (0, ⟨0, rpm_status.RPM_SUSPENDED, true, [⟨Call.pm_runtime_get_sync (-13), 0⟩]⟩) ∧
      scsi_autopm_get_host env_pm_eacces (world_init 0 rpm_status.RPM_SUSPENDED) =
        (0, ⟨0, rpm_status.RPM_SUSPENDED, true, [⟨Call.pm_runtime_get_sync (-13), 0⟩]⟩)) :=
  ⟨(autopm_get_failure_contract env_pm_eio (world_init 0 rpm_status.RPM_SUSPENDED)).2.1
      (by decide) (by decide),
    (autopm_get_failure_contract env_pm_eacces (world_init 0 rpm_status.RPM_SUSPENDED)).1
      (by decide)⟩

/-- C9 (amended): `scsi_autopm_get_target` calls `pm_runtime_get_sync` once and
does nothing else, whatever that call returns: the result is discarded (the
function returns `void`), and no compensating `pm_runtime_put_sync` is made. -/
theorem autopm_get_target_discards_result (env : Env) (w : World) :
    scsi_autopm_get_target env w =
      ⟨w.nr_pending, w.runtime_status, w.runtime_enabled,
        w.trace ++ [⟨Call.pm_runtime_get_sync (env.pm_runtime_get_sync w), w.nr_pending⟩]⟩ := by
  simp [scsi_autopm_get_target, pm_runtime_get_sync, World.log]

/-- C9 (as stated) fails: when the synchronous get fails with -5,
`scsi_autopm_get_target` makes no `pm_runtime_put_sync` call, where
`scsi_autopm_get_device` makes one. -/
theorem autopm_get_target_no_compensating_put :
    scsi_autopm_get_target env_pm_eio (world_init 0 rpm_status.RPM_SUSPENDED) =
      ⟨0, rpm_status.RPM_SUSPENDED, true, [⟨Call.pm_runtime_get_sync (-5), 0⟩]⟩ ∧
    (⟨Call.pm_runtime_put_sync, 0⟩ : Event) ∉
      (scsi_autopm_get_target env_pm_eio (world_init 0 rpm_status.RPM_SUSPENDED)).trace ∧
    (⟨Call.pm_runtime_put_sync, 0⟩ : Event) ∈
      (scsi_autopm_get_device env_pm_eio (world_init 0 rpm_status.RPM_SUSPENDED)).2.trace := by
  decide

/-- C10: a leaf device, not cached SUSPENDED, with no suspend hook and `n`
requests pending, where every `scsi_run_queue` call completes at least one
pending request and the one pre-suspend call made, on the drained queue,
succeeds.  With fuel for `n` runs, `scsi_bus_suspend` returns 0.  The drain loop
runs the queue `k ≤ n` times, the pending count being non-zero before each run
and 0 after the last; then come `blk_pre_runtime_suspend`, no hook,
`blk_post_runtime_suspend(0)`, and `__pm_runtime_disable(dev, false)`,
`pm_runtime_set_suspended`, `pm_runtime_enable`; the cached state is
SUSPENDED. -/
theorem suspend_drains_then_forces_suspended (env : Env) (n fuel : Nat) (dev : device)
    (w : World)
    (hs : scsi_is_sdev_device dev = true) (hp : pm_runtime_suspended w = false)
    (hcb : pm_slot (driver_pm dev) dev_pm_ops.suspend = none)
    (hn : w.nr_pending = n)
    (hdec : ∀ m, 0 < m → env.scsi_run_queue m < m)
    (hpre : ∀ k, env.scsi_run_queue^[k] n = 0 →
      (∀ j, j < k → env.scsi_run_queue^[j] n ≠ 0) →
      env.blk_pre_runtime_suspend (drained env k w) = 0)
    (hfuel : n < fuel) :
    ∃ k, k ≤ n ∧ env.scsi_run_queue^[k] n = 0 ∧
      (∀ j, j < k → env.scsi_run_queue^[j] n ≠ 0) ∧
      scsi_bus_suspend env fuel dev w =
        some (0, ⟨0, rpm_status.RPM_SUSPENDED, true,
          w.trace ++ drain_trace env.scsi_run_queue k n ++
            [⟨Call.blk_pre_runtime_suspend 0, 0⟩, ⟨Call.blk_post_runtime_suspend 0, 0⟩,
              ⟨Call.__pm_runtime_disable false, 0⟩, ⟨Call.pm_runtime_set_suspended, 0⟩,
              ⟨Call.pm_runtime_enable, 0⟩]⟩) := by
  subst hn
  obtain ⟨k, hk, h0, hmin⟩ := drain_steps_exist env.scsi_run_queue hdec w.nr_pending
  refine ⟨k, hk, h0, hmin, ?_⟩
  unfold scsi_bus_suspend
  rw [hcb, scsi_bus_suspend_common_leaf env k fuel dev _ w hs hp h0 hmin (by omega),
    sdev_suspend_common_no_cb env _ (hpre k h0 hmin)]
  simp [drained, pm_runtime_enable, pm_runtime_set_suspended, __pm_runtime_disable, World.log]

/-- Witness for C10: three requests pending, each queue run completing one, and
a pre-suspend step that refuses a busy queue. -/
theorem suspend_drains_then_forces_suspended_witness :
    ∃ k, k ≤ 3 ∧ env_busy.scsi_run_queue^[k] 3 = 0 ∧
      (∀ j, j < k → env_busy.scsi_run_queue^[j] 3 ≠ 0) ∧
      scsi_bus_suspend env_busy 4 unbound_dev (world_init 3 rpm_status.RPM_ACTIVE) =
        some (0, ⟨0, rpm_status.RPM_SUSPENDED, true,
          [] ++ drain_trace env_busy.scsi_run_queue k 3 ++
            [⟨Call.blk_pre_runtime_suspend 0, 0⟩, ⟨Call.blk_post_runtime_suspend 0, 0⟩,
              ⟨Call.__pm_runtime_disable false, 0⟩, ⟨Call.pm_runtime_set_suspended, 0⟩,
              ⟨Call.pm_runtime_enable, 0⟩]⟩) :=
  suspend_drains_then_forces_suspended env_busy 3 4 unbound_dev
    (world_init 3 rpm_status.RPM_ACTIVE) (by decide) (by decide) rfl rfl
    (fun m hm => Nat.sub_lt hm Nat.one_pos) (fun _ _ _ => rfl) (by decide)

/-- The run of C10 at three pending requests, call by call: the queue is run
with 3, 2 and 1 requests pending, and the pre-suspend step sees none.  With
fuel for only three evaluations of the loop condition the model gives no
result. -/
theorem suspend_three_pending_trace :
    scsi_bus_suspend env_busy 4 unbound_dev (world_init 3 rpm_status.RPM_ACTIVE) =
      some (0, ⟨0, rpm_status.RPM_SUSPENDED, true,
        [⟨Call.scsi_run_queue, 3⟩, ⟨Call.scsi_run_queue, 2⟩, ⟨Call.scsi_run_queue, 1⟩,
          ⟨Call.blk_pre_runtime_suspend 0, 0⟩, ⟨Call.blk_post_runtime_suspend 0, 0⟩,
          ⟨Call.__pm_runtime_disable false, 0⟩, ⟨Call.pm_runtime_set_suspended, 0⟩,
          ⟨Call.pm_runtime_enable, 0⟩]⟩) ∧
    scsi_bus_suspend env_busy 3 unbound_dev (world_init 3 rpm_status.RPM_ACTIVE) = none := by
  decide

/-- C11 (amended): every invocation of `sdev_suspend_common` starts with
`blk_pre_runtime_suspend`.  When that returns 0, the hook is invoked next if
there is one, then `blk_post_runtime_suspend` is called once with the hook's
outcome (0 without a hook), and that outcome is returned.  When it returns an
error, that error is returned at once: no hook, no `blk_post_runtime_suspend`. -/
theorem stop_primitive_order (env : Env) (cb : Option Hook) (w : World) :
    (env.blk_pre_runtime_suspend w = 0 → cb = none →
      sdev_suspend_common env cb w =
        (0, ⟨w.nr_pending, w.runtime_status, w.runtime_enabled, w.trace ++
          [⟨Call.blk_pre_runtime_suspend 0, w.nr_pending⟩,
            ⟨Call.blk_post_runtime_suspend 0, w.nr_pending⟩]⟩)) ∧
    (env.blk_pre_runtime_suspend w = 0 → ∀ f, cb = some f →
      sdev_suspend_common env cb w =
        (f.body (w.log (Call.blk_pre_runtime_suspend 0)),
          ⟨w.nr_pending, w.runtime_status, w.runtime_enabled, w.trace ++
            [⟨Call.blk_pre_runtime_suspend 0, w.nr_pending⟩,
              ⟨Call.cb f.fn (f.body (w.log (Call.blk_pre_runtime_suspend 0))), w.nr_pending⟩,
              ⟨Call.blk_post_runtime_suspend (f.body (w.log (Call.blk_pre_runtime_suspend 0))),
                w.nr_pending⟩]⟩)) ∧
    (env.blk_pre_runtime_suspend w ≠ 0 →
      sdev_suspend_common env cb w =
        (env.blk_pre_runtime_suspend w,
          ⟨w.nr_pending, w.runtime_status, w.runtime_enabled, w.trace ++
            [⟨Call.blk_pre_runtime_suspend (env.blk_pre_runtime_suspend w), w.nr_pending⟩]⟩)) := by
  refine ⟨fun h hcb => ?_, fun h f hcb => ?_, fun h => ?_⟩
  · rw [hcb]; exact sdev_suspend_common_no_cb env w h
  · rw [hcb]; exact sdev_suspend_common_cb env f w h
  · exact sdev_suspend_common_refused env cb w h

/-- Witness for C11: a hook failing with -5 on an empty queue; post-suspend is
told -5 and -5 is returned. -/
theorem stop_primitive_order_witness :
    sdev_suspend_common env_busy (some (hook_ret 6 (-5))) (world_init 0 rpm_status.RPM_ACTIVE) =
      (-5, ⟨0, rpm_status.RPM_ACTIVE, true,
        [⟨Call.blk_pre_runtime_suspend 0, 0⟩, ⟨Call.cb 6 (-5), 0⟩,
          ⟨Call.blk_post_runtime_suspend (-5), 0⟩]⟩) :=
  (stop_primitive_order env_busy (some (hook_ret 6 (-5)))
    (world_init 0 rpm_status.RPM_ACTIVE)).2.1 (by decide) (hook_ret 6 (-5)) rfl

/-- C11 (as stated) fails: with three requests pending the pre-suspend step
answers -16; the Stop primitive, here reached from `scsi_bus_runtime_suspend`
on a leaf device whose hook would return 0, returns -16 without invoking the
hook and without calling `blk_post_runtime_suspend`. -/
theorem stop_primitive_stops_at_pre_suspend_error :
    sdev_suspend_common env_busy (some (hook_ret 6 0)) (world_init 3 rpm_status.RPM_ACTIVE) =
      (-16, ⟨3, rpm_status.RPM_ACTIVE, true, [⟨Call.blk_pre_runtime_suspend (-16), 3⟩]⟩) ∧
    scsi_bus_runtime_suspend env_busy sd_dev (world_init 3 rpm_status.RPM_ACTIVE) =
      (-16, ⟨3, rpm_status.RPM_ACTIVE, true, [⟨Call.blk_pre_runtime_suspend (-16), 3⟩]⟩) := by
  decide

/-- C13: `scsi_bus_prepare` returns 0 on every node and changes neither the
pending count nor the cached power state.  On a leaf device its only call is
`async_synchronize_full_domain`; on a host node its only call is
`scsi_complete_async_scans`; on any other node it calls nothing. -/
theorem prepare_waits_on_the_right_barrier (dev : device) (w : World) :
    (scsi_bus_prepare dev w).1 = 0 ∧
    (dev.type = device_type.scsi_dev_type →
      scsi_bus_prepare dev w =
        (0, ⟨w.nr_pending, w.runtime_status, w.runtime_enabled,
          w.trace ++ [⟨Call.async_synchronize_full_domain, w.nr_pending⟩]⟩)) ∧
    (dev.type = device_type.scsi_host_type →
      scsi_bus_prepare dev w =
        (0, ⟨w.nr_pending, w.runtime_status, w.runtime_enabled,
          w.trace ++ [⟨Call.scsi_complete_async_scans, w.nr_pending⟩]⟩)) ∧
    (dev.type ≠ device_type.scsi_dev_type → dev.type ≠ device_type.scsi_host_type →
      scsi_bus_prepare dev w = (0, w)) := by
  refine ⟨?_, fun h => ?_, fun h => ?_, fun h1 h2 => ?_⟩
  · unfold scsi_bus_prepare
    split
    · rfl
    · split <;> rfl
  · simp [scsi_bus_prepare, scsi_is_sdev_device, h, async_synchronize_full_domain, World.log]
  · simp [scsi_bus_prepare, scsi_is_sdev_device, scsi_is_host_device, h,
      scsi_complete_async_scans, World.log]
  · simp [scsi_bus_prepare, scsi_is_sdev_device, scsi_is_host_device, h1, h2]

/-- Witness for C13: a host node, two requests pending on the world it is run
in, cached state ACTIVE. -/
theorem prepare_waits_on_the_right_barrier_witness :
    scsi_bus_prepare host_dev (world_init 2 rpm_status.RPM_ACTIVE) =
      (0, ⟨2, rpm_status.RPM_ACTIVE, true, [⟨Call.scsi_complete_async_scans, 2⟩]⟩) :=
  (prepare_waits_on_the_right_barrier host_dev (world_init 2 rpm_status.RPM_ACTIVE)).2.2.1 rfl

/-- C14: `scsi_bus_runtime_idle` calls neither the queue nor a driver hook.  On
a leaf device it calls `pm_runtime_mark_last_busy`, then
`pm_runtime_autosuspend`, and returns the latter's result; on any other node
it calls only `pm_runtime_suspend` and returns its result. -/
theorem runtime_idle_requests (env : Env) (dev : device) (w : World) :
    (scsi_is_sdev_device dev = true →
      scsi_bus_runtime_idle env dev w =
        (env.pm_runtime_autosuspend (w.log Call.pm_runtime_mark_last_busy),
          ⟨w.nr_pending, w.runtime_status, w.runtime_enabled, w.trace ++
            [⟨Call.pm_runtime_mark_last_busy, w.nr_pending⟩,
              ⟨Call.pm_runtime_autosuspend
                (env.pm_runtime_autosuspend (w.log Call.pm_runtime_mark_last_busy)),
                w.nr_pending⟩]⟩)) ∧
    (scsi_is_sdev_device dev = false →
      scsi_bus_runtime_idle env dev w =
        (env.pm_runtime_suspend w,
          ⟨w.nr_pending, w.runtime_status, w.runtime_enabled, w.trace ++
            [⟨Call.pm_runtime_suspend (env.pm_runtime_suspend w), w.nr_pending⟩]⟩)) := by
  constructor
  · intro h
    simp [scsi_bus_runtime_idle, h, pm_runtime_autosuspend, pm_runtime_mark_last_busy, World.log]
  · intro h
    simp [scsi_bus_runtime_idle, h, pm_runtime_suspend, World.log]

/-- Witness for C14: a leaf device whose autosuspend request is answered -5,
and a host node whose suspend request is answered -5. -/
theorem runtime_idle_requests_witness :
    scsi_bus_runtime_idle env_pm_eio sd_dev (world_init 0 rpm_status.RPM_ACTIVE) =
      (-5, ⟨0, rpm_status.RPM_ACTIVE, true,
        [⟨Call.pm_runtime_mark_last_busy, 0⟩, ⟨Call.pm_runtime_autosuspend (-5), 0⟩]⟩) ∧
    scsi_bus_runtime_idle env_pm_eio host_dev (world_init 0 rpm_status.RPM_ACTIVE) =
      (-5, ⟨0, rpm_status.RPM_ACTIVE, true, [⟨Call.pm_runtime_suspend (-5), 0⟩]⟩) :=
  ⟨(runtime_idle_requests env_pm_eio sd_dev (world_init 0 rpm_status.RPM_ACTIVE)).1 (by decide),
    (runtime_idle_requests env_pm_eio host_dev (world_init 0 rpm_status.RPM_ACTIVE)).2
      (by decide)⟩

/-- C16: when `blk_pre_runtime_suspend` returns a non-zero error,
`sdev_suspend_common` returns exactly that error and its only call is the
pre-suspend step: the hook is not invoked, whatever it is, and
`blk_post_runtime_suspend` is not called.  On that path `scsi_bus_suspend`, on a
leaf device not cached SUSPENDED whose queue is empty after `k` runs, returns
the error and forces nothing: the cached state and the tracking flag are
unchanged and no `pm_runtime_*` call is made. -/
theorem pre_suspend_error_skips_hook_and_forcing (env : Env) (k fuel : Nat) (dev : device)
    (w : World) :
    (∀ cb w0, env.blk_pre_runtime_suspend w0 ≠ 0 →
      sdev_suspend_common env cb w0 =
        (env.blk_pre_runtime_suspend w0,
          ⟨w0.nr_pending, w0.runtime_status, w0.runtime_enabled, w0.trace ++
            [⟨Call.blk_pre_runtime_suspend (env.blk_pre_runtime_suspend w0),
              w0.nr_pending⟩]⟩)) ∧
    (scsi_is_sdev_device dev = true → pm_runtime_suspended w = false →
      env.scsi_run_queue^[k] w.nr_pending = 0 →
      (∀ j, j < k → env.scsi_run_queue^[j] w.nr_pending ≠ 0) → k < fuel →
      env.blk_pre_runtime_suspend (drained env k w) ≠ 0 →
      scsi_bus_suspend env fuel dev w =
        some (env.blk_pre_runtime_suspend (drained env k w),
          ⟨0, w.runtime_status, w.runtime_enabled,
            w.trace ++ drain_trace env.scsi_run_queue k w.nr_pending ++
              [⟨Call.blk_pre_runtime_suspend (env.blk_pre_runtime_suspend (drained env k w)),
                0⟩]⟩)) := by
  refine ⟨fun cb w0 h => sdev_suspend_common_refused env cb w0 h, ?_⟩
  intro hs hp h0 hmin hk hpre
  unfold scsi_bus_suspend
  rw [scsi_bus_suspend_common_leaf env k fuel dev _ w hs hp h0 hmin hk,
    sdev_suspend_common_refused env _ _ hpre]
  generalize env.blk_pre_runtime_suspend (drained env k w) = e at hpre ⊢
  simp [hpre, drained]

/-- Witness for C16: two requests pending, a pre-suspend step that answers -16
once the queue is drained, a suspend hook that would return 0. -/
theorem pre_suspend_error_skips_hook_and_forcing_witness :
    scsi_bus_suspend env_refuse 3 sd_dev (world_init 2 rpm_status.RPM_ACTIVE) =
      some (-16, ⟨0, rpm_status.RPM_ACTIVE, true,
        [] ++ drain_trace env_refuse.scsi_run_queue 2 2 ++
          [⟨Call.blk_pre_runtime_suspend (-16), 0⟩]⟩) :=
  (pre_suspend_error_skips_hook_and_forcing env_refuse 2 3 sd_dev
    (world_init 2 rpm_status.RPM_ACTIVE)).2 (by decide) (by decide) (by decide) (by decide)
    (by decide) (by decide)

/-- C17: on a leaf device cached SUSPENDED, with any amount of fuel and with or
without hooks, `scsi_bus_freeze` and `scsi_bus_poweroff` return 0 and call
nothing, and `scsi_bus_suspend` returns 0 and calls only
`__pm_runtime_disable(dev, false)`, `pm_runtime_set_suspended`,
`pm_runtime_enable`: no drain loop, no `blk_pre_runtime_suspend`, no hook, no
`blk_post_runtime_suspend`. -/
theorem stop_entry_points_skip_suspended_device (env : Env) (fuel : Nat) (dev : device)
    (w : World)
    (hs : scsi_is_sdev_device dev = true) (hp : pm_runtime_suspended w = true) :
    scsi_bus_suspend env fuel dev w =
      some (0, ⟨w.nr_pending, rpm_status.RPM_SUSPENDED, true, w.trace ++
        [⟨Call.__pm_runtime_disable false, w.nr_pending⟩,
          ⟨Call.pm_runtime_set_suspended, w.nr_pending⟩,
          ⟨Call.pm_runtime_enable, w.nr_pending⟩]⟩) ∧
    scsi_bus_freeze env fuel dev w = some (0, w) ∧
    scsi_bus_poweroff env fuel dev w = some (0, w) := by
  refine ⟨?_, ?_, ?_⟩
  · simp [scsi_bus_suspend, scsi_bus_suspend_common, hs, hp, pm_runtime_enable,
      pm_runtime_set_suspended, __pm_runtime_disable, World.log]
  · simp [scsi_bus_freeze, scsi_bus_suspend_common, hs, hp]
  · simp [scsi_bus_poweroff, scsi_bus_suspend_common, hs, hp]

/-- Witness for C17: a leaf device with every hook present, cached SUSPENDED,
three requests pending, no fuel. -/
theorem stop_entry_points_skip_suspended_device_witness :
    scsi_bus_suspend env_ok 0 sd_dev (world_init 3 rpm_status.RPM_SUSPENDED) =
      some (0, ⟨3, rpm_status.RPM_SUSPENDED, true, [] ++
        [⟨Call.__pm_runtime_disable false, 3⟩, ⟨Call.pm_runtime_set_suspended, 3⟩,
          ⟨Call.pm_runtime_enable, 3⟩]⟩) ∧
    scsi_bus_freeze env_ok 0 sd_dev (world_init 3 rpm_status.RPM_SUSPENDED) =
      some (0, world_init 3 rpm_status.RPM_SUSPENDED) ∧
    scsi_bus_poweroff env_ok 0 sd_dev (world_init 3 rpm_status.RPM_SUSPENDED) =
      some (0, world_init 3 rpm_status.RPM_SUSPENDED) :=
  stop_entry_points_skip_suspended_device env_ok 0 sd_dev
    (world_init 3 rpm_status.RPM_SUSPENDED) (by decide) (by decide)

/-- C18: on a node that is not a leaf device, with or without hooks and with
any amount of fuel, no entry point calls the queue or a driver hook.
`scsi_bus_runtime_suspend`, `scsi_bus_runtime_resume`, `scsi_bus_freeze` and
`scsi_bus_poweroff` return 0 and call nothing.  `scsi_bus_suspend` returns 0 and
calls only the sequence forcing SUSPENDED; `scsi_bus_thaw` and
`scsi_bus_restore` return 0 and call only the sequence forcing ACTIVE.
`scsi_bus_resume` and `scsi_bus_runtime_idle` call only the framework, and
`scsi_bus_prepare` at most the scan barrier. -/
theorem non_leaf_node_entry_points (env : Env) (fuel : Nat) (dev : device) (w : World)
    (hs : scsi_is_sdev_device dev = false) :
    scsi_bus_runtime_suspend env dev w = (0, w) ∧
    scsi_bus_runtime_resume dev w = (0, w) ∧
    scsi_bus_freeze env fuel dev w = some (0, w) ∧
    scsi_bus_poweroff env fuel dev w = some (0, w) ∧
    scsi_bus_suspend env fuel dev w =
      some (0, ⟨w.nr_pending, rpm_status.RPM_SUSPENDED, true, w.trace ++
        [⟨Call.__pm_runtime_disable false, w.nr_pending⟩,
          ⟨Call.pm_runtime_set_suspended, w.nr_pending⟩,
          ⟨Call.pm_runtime_enable, w.nr_pending⟩]⟩) ∧
    scsi_bus_thaw dev w =
      (0, ⟨w.nr_pending, rpm_status.RPM_ACTIVE, true, w.trace ++
        [⟨Call.pm_runtime_disable, w.nr_pending⟩, ⟨Call.pm_runtime_set_active, w.nr_pending⟩,
          ⟨Call.pm_runtime_enable, w.nr_pending⟩]⟩) ∧
    scsi_bus_restore dev w =
      (0, ⟨w.nr_pending, rpm_status.RPM_ACTIVE, true, w.trace ++
        [⟨Call.pm_runtime_disable, w.nr_pending⟩, ⟨Call.pm_runtime_set_active, w.nr_pending⟩,
          ⟨Call.pm_runtime_enable, w.nr_pending⟩]⟩) ∧
    scsi_bus_resume env dev w =
      (env.pm_request_resume w, ⟨w.nr_pending, w.runtime_status, w.runtime_enabled,
        w.trace ++ [⟨Call.pm_request_resume (env.pm_request_resume w), w.nr_pending⟩]⟩) ∧
    scsi_bus_runtime_idle env dev w =
      (env.pm_runtime_suspend w, ⟨w.nr_pending, w.runtime_status, w.runtime_enabled,
        w.trace ++ [⟨Call.pm_runtime_suspend (env.pm_runtime_suspend w), w.nr_pending⟩]⟩) ∧
    scsi_bus_prepare dev w =
      (0, if scsi_is_host_device dev = true then
        ⟨w.nr_pending, w.runtime_status, w.runtime_enabled,
          w.trace ++ [⟨Call.scsi_complete_async_scans, w.nr_pending⟩]⟩
      else w) := by
  refine ⟨?_, ?_, ?_, ?_, ?_, ?_, ?_, ?_, ?_, ?_⟩
  · simp [scsi_bus_runtime_suspend, hs]
  · simp [scsi_bus_runtime_resume, hs]
  · simp [scsi_bus_freeze, scsi_bus_suspend_common, hs]
  · simp [scsi_bus_poweroff, scsi_bus_suspend_common, hs]
  · simp [scsi_bus_suspend, scsi_bus_suspend_common, hs, pm_runtime_enable,
      pm_runtime_set_suspended, __pm_runtime_disable, World.log]
  · simp [scsi_bus_thaw, scsi_bus_resume_common, hs, pm_runtime_enable, pm_runtime_set_active,
      pm_runtime_disable, World.log]
  · simp [scsi_bus_restore, scsi_bus_resume_common, hs, pm_runtime_enable,
      pm_runtime_set_active, pm_runtime_disable, World.log]
  · simp [scsi_bus_resume, pm_request_resume, World.log]
  · simp [scsi_bus_runtime_idle, hs, pm_runtime_suspend, World.log]
  · by_cases hh : scsi_is_host_device dev = true
    · simp [scsi_bus_prepare, hs, hh, scsi_complete_async_scans, World.log]
    · simp [scsi_bus_prepare, hs, hh]

/-- Witness for C18: a target node bound to a driver with every hook present,
two requests pending in the world it is run in, no fuel. -/
theorem non_leaf_node_entry_points_witness :
    scsi_bus_runtime_suspend env_ok target_dev (world_init 2 rpm_status.RPM_ACTIVE) =
      (0, world_init 2 rpm_status.RPM_ACTIVE) ∧
    scsi_bus_runtime_resume target_dev (world_init 2 rpm_status.RPM_ACTIVE) =
      (0, world_init 2 rpm_status.RPM_ACTIVE) ∧
    scsi_bus_freeze env_ok 0 target_dev (world_init 2 rpm_status.RPM_ACTIVE) =
      some (0, world_init 2 rpm_status.RPM_ACTIVE) ∧
    scsi_bus_poweroff env_ok 0 target_dev (world_init 2 rpm_status.RPM_ACTIVE) =
      some (0, world_init 2 rpm_status.RPM_ACTIVE) ∧
    scsi_bus_suspend env_ok 0 target_dev (world_init 2 rpm_status.RPM_ACTIVE) =
      some (0, ⟨2, rpm_status.RPM_SUSPENDED, true, [] ++
        [⟨Call.__pm_runtime_disable false, 2⟩, ⟨Call.pm_runtime_set_suspended, 2⟩,
          ⟨Call.pm_runtime_enable, 2⟩]⟩) :=
  have h := non_leaf_node_entry_points env_ok 0 target_dev
    (world_init 2 rpm_status.RPM_ACTIVE) (by decide)
  ⟨h.1, h.2.1, h.2.2.1, h.2.2.2.1, h.2.2.2.2.1⟩

/-- C12 (amended): when the hook of a phase is absent (no driver bound, no hook
table, or a NULL slot), the entry point of that phase invokes no driver code.
`scsi_bus_thaw`, `scsi_bus_restore` and `scsi_bus_runtime_resume` then return 0.
`scsi_bus_suspend`, `scsi_bus_freeze`, `scsi_bus_poweroff` and
`scsi_bus_runtime_suspend` then return 0 when the Stop primitive is skipped,
and otherwise exactly what the one `blk_pre_runtime_suspend` call made
returned: 0 when it succeeds, its error when it fails.  The first three do
return, given fuel, once the drain loop has seen the queue empty. -/
theorem absent_hook_invokes_no_driver_code (env : Env) (fuel : Nat) (dev : device)
    (w : World) :
    (hook_absent dev dev_pm_ops.suspend →
      (∀ r w', scsi_bus_suspend env fuel dev w = some (r, w') →
        (∃ new, w'.trace = w.trace ++ new ∧ no_hook new) ∧
        ((scsi_is_sdev_device dev = false ∨ pm_runtime_suspended w = true) → r = 0) ∧
        (scsi_is_sdev_device dev = true → pm_runtime_suspended w = false →
          ∃ k, k < fuel ∧ env.scsi_run_queue^[k] w.nr_pending = 0 ∧
            (∀ j, j < k → env.scsi_run_queue^[j] w.nr_pending ≠ 0) ∧
            r = env.blk_pre_runtime_suspend (drained env k w))) ∧
      (∀ k, env.scsi_run_queue^[k] w.nr_pending = 0 →
        (∀ j, j < k → env.scsi_run_queue^[j] w.nr_pending ≠ 0) → k < fuel →
        env.blk_pre_runtime_suspend (drained env k w) = 0 →
        ∃ w', scsi_bus_suspend env fuel dev w = some (0, w') ∧
          ∃ new, w'.trace = w.trace ++ new ∧ no_hook new) ∧
      (∀ k, env.scsi_run_queue^[k] w.nr_pending = 0 → k < fuel →
        ∃ p, scsi_bus_suspend env fuel dev w = some p)) ∧
    (hook_absent dev dev_pm_ops.freeze →
      (∀ r w', scsi_bus_freeze env fuel dev w = some (r, w') →
        (∃ new, w'.trace = w.trace ++ new ∧ no_hook new) ∧
        ((scsi_is_sdev_device dev = false ∨ pm_runtime_suspended w = true) → r = 0) ∧
        (scsi_is_sdev_device dev = true → pm_runtime_suspended w = false →
          ∃ k, k < fuel ∧ env.scsi_run_queue^[k] w.nr_pending = 0 ∧
            (∀ j, j < k → env.scsi_run_queue^[j] w.nr_pending ≠ 0) ∧
            r = env.blk_pre_runtime_suspend (drained env k w))) ∧
      (∀ k, env.scsi_run_queue^[k] w.nr_pending = 0 →
        (∀ j, j < k → env.scsi_run_queue^[j] w.nr_pending ≠ 0) → k < fuel →
        env.blk_pre_runtime_suspend (drained env k w) = 0 →
        ∃ w', scsi_bus_freeze env fuel dev w = some (0, w') ∧
          ∃ new, w'.trace = w.trace ++ new ∧ no_hook new) ∧
      (∀ k, env.scsi_run_queue^[k] w.nr_pending = 0 → k < fuel →
        ∃ p, scsi_bus_freeze env fuel dev w = some p)) ∧
    (hook_absent dev dev_pm_ops.poweroff →
      (∀ r w', scsi_bus_poweroff env fuel dev w = some (r, w') →
        (∃ new, w'.trace = w.trace ++ new ∧ no_hook new) ∧
        ((scsi_is_sdev_device dev = false ∨ pm_runtime_suspended w = true) → r = 0) ∧
        (scsi_is_sdev_device dev = true → pm_runtime_suspended w = false →
          ∃ k, k < fuel ∧ env.scsi_run_queue^[k] w.nr_pending = 0 ∧
            (∀ j, j < k → env.scsi_run_queue^[j] w.nr_pending ≠ 0) ∧
            r = env.blk_pre_runtime_suspend (drained env k w))) ∧
      (∀ k, env.scsi_run_queue^[k] w.nr_pending = 0 →
        (∀ j, j < k → env.scsi_run_queue^[j] w.nr_pending ≠ 0) → k < fuel →
        env.blk_pre_runtime_suspend (drained env k w) = 0 →
        ∃ w', scsi_bus_poweroff env fuel dev w = some (0, w') ∧
          ∃ new, w'.trace = w.trace ++ new ∧ no_hook new) ∧
      (∀ k, env.scsi_run_queue^[k] w.nr_pending = 0 → k < fuel →
        ∃ p, scsi_bus_poweroff env fuel dev w = some p)) ∧
    (hook_absent dev dev_pm_ops.runtime_suspend →
      (∃ new, (scsi_bus_runtime_suspend env dev w).2.trace = w.trace ++ new ∧ no_hook new) ∧
      (scsi_is_sdev_device dev = true →
        (scsi_bus_runtime_suspend env dev w).1 = env.blk_pre_runtime_suspend w) ∧
      (scsi_is_sdev_device dev = false → (scsi_bus_runtime_suspend env dev w).1 = 0)) ∧
    (hook_absent dev dev_pm_ops.thaw →
      (scsi_bus_thaw dev w).1 = 0 ∧
        ∃ new, (scsi_bus_thaw dev w).2.trace = w.trace ++ new ∧ no_hook new) ∧
    (hook_absent dev dev_pm_ops.restore →
      (scsi_bus_restore dev w).1 = 0 ∧
        ∃ new, (scsi_bus_restore dev w).2.trace = w.trace ++ new ∧ no_hook new) ∧
    (hook_absent dev dev_pm_ops.runtime_resume →
      (scsi_bus_runtime_resume dev w).1 = 0 ∧
        ∃ new, (scsi_bus_runtime_resume dev w).2.trace = w.trace ++ new ∧ no_hook new) := by
  have hforce : ∀ np : Nat, no_hook [⟨Call.__pm_runtime_disable false, np⟩,
      ⟨Call.pm_runtime_set_suspended, np⟩, ⟨Call.pm_runtime_enable, np⟩] := by
    intro np e he fn ret
    simp at he
    rcases he with rfl | rfl | rfl <;> simp
  refine ⟨fun ha => ⟨fun r w' h => ?_, fun k h0 hmin hk hpre => ?_, fun k h0 hk => ?_⟩,
    fun ha => ⟨fun r w' h => ?_, fun k h0 hmin hk hpre => ?_, fun k h0 hk => ?_⟩,
    fun ha => ⟨fun r w' h => ?_, fun k h0 hmin hk hpre => ?_, fun k h0 hk => ?_⟩,
    fun ha => ?_, fun ha => ?_, fun ha => ?_, fun ha => ?_⟩
  · obtain ⟨w1, hc, _, _⟩ := scsi_bus_suspend_some env fuel dev w r w' h
    rw [pm_slot_of_absent dev _ ha] at hc
    exact ⟨(scsi_bus_suspend_no_cb env fuel dev w (pm_slot_of_absent dev _ ha) r w' h).1,
      scsi_bus_suspend_common_no_cb_result env fuel dev w r w1 hc⟩
  · obtain ⟨w1, hc, new, hnew, hno⟩ :=
      scsi_bus_suspend_common_no_cb_success env k fuel dev w h0 hmin hk hpre
    refine ⟨pm_runtime_enable (pm_runtime_set_suspended (__pm_runtime_disable false w1)), ?_,
      new ++ [⟨Call.__pm_runtime_disable false, w1.nr_pending⟩,
        ⟨Call.pm_runtime_set_suspended, w1.nr_pending⟩,
        ⟨Call.pm_runtime_enable, w1.nr_pending⟩], ?_, ?_⟩
    · unfold scsi_bus_suspend
      rw [pm_slot_of_absent dev _ ha, hc]
      simp
    · simp [pm_runtime_enable, pm_runtime_set_suspended, __pm_runtime_disable, World.log, hnew]
    · intro e he fn ret
      rcases List.mem_append.mp he with he | he
      · exact hno e he fn ret
      · exact hforce w1.nr_pending e he fn ret
  · exact scsi_bus_suspend_returns env k fuel dev w h0 hk
  · unfold scsi_bus_freeze at h
    rw [pm_slot_of_absent dev _ ha] at h
    exact ⟨(scsi_bus_suspend_common_no_cb env fuel dev w r w' h).1,
      scsi_bus_suspend_common_no_cb_result env fuel dev w r w' h⟩
  · unfold scsi_bus_freeze
    rw [pm_slot_of_absent dev _ ha]
    exact scsi_bus_suspend_common_no_cb_success env k fuel dev w h0 hmin hk hpre
  · exact scsi_bus_suspend_common_returns env k fuel dev _ w h0 hk
  · unfold scsi_bus_poweroff at h
    rw [pm_slot_of_absent dev _ ha] at h
    exact ⟨(scsi_bus_suspend_common_no_cb env fuel dev w r w' h).1,
      scsi_bus_suspend_common_no_cb_result env fuel dev w r w' h⟩
  · unfold scsi_bus_poweroff
    rw [pm_slot_of_absent dev _ ha]
    exact scsi_bus_suspend_common_no_cb_success env k fuel dev w h0 hmin hk hpre
  · exact scsi_bus_suspend_common_returns env k fuel dev _ w h0 hk
  · unfold scsi_bus_runtime_suspend
    rw [pm_slot_of_absent dev _ ha]
    by_cases hs : scsi_is_sdev_device dev = true
    · rw [hs, if_pos rfl]
      obtain ⟨tail, ht, hg⟩ := sdev_suspend_common_guarded env none w
      exact ⟨⟨tail, by rw [ht], no_hook_of_guarded_none _ tail hg⟩,
        fun _ => sdev_suspend_common_no_cb_result env w, fun h => Bool.noConfusion h⟩
    · have hs' : scsi_is_sdev_device dev = false := by simpa using hs
      rw [hs', if_neg (by decide)]
      exact ⟨⟨[], by simp, by intro e he; simp at he⟩, fun h => Bool.noConfusion h,
        fun _ => rfl⟩
  · unfold scsi_bus_thaw
    rw [pm_slot_of_absent dev _ ha]
    exact scsi_bus_resume_common_no_cb dev w
  · unfold scsi_bus_restore
    rw [pm_slot_of_absent dev _ ha]
    exact scsi_bus_resume_common_no_cb dev w
  · unfold scsi_bus_runtime_resume
    rw [pm_slot_of_absent dev _ ha]
    by_cases hs : scsi_is_sdev_device dev = true
    · simp only [hs, if_true]
      rw [sdev_resume_no_cb]
      refine ⟨rfl, _, rfl, ?_⟩
      intro e he fn ret
      simp at he
      rcases he with rfl | rfl <;> simp
    · simp only [hs]
      exact ⟨rfl, [], by simp, by intro e he; simp at he⟩

/-- Witness for C12: a leaf device bound to a driver without a hook table, one
request pending, a pre-suspend step that refuses a busy queue; freeze returns
0 and no callback is called. -/
theorem absent_hook_invokes_no_driver_code_witness :
    ∃ w', scsi_bus_freeze env_busy 2 no_pm_dev (world_init 1 rpm_status.RPM_ACTIVE) =
        some (0, w') ∧
      ∃ new, w'.trace = [] ++ new ∧ no_hook new :=
  ((absent_hook_invokes_no_driver_code env_busy 2 no_pm_dev
    (world_init 1 rpm_status.RPM_ACTIVE)).2.1 (Or.inr (Or.inl ⟨⟨none⟩, rfl, rfl⟩))).2.1 1
    (by decide) (by decide) (by decide) (by decide)

/-- C12 (as stated) fails: on a leaf device with no driver bound and three
requests pending, the pre-suspend step answers -16 and
`scsi_bus_runtime_suspend` returns -16, not success. -/
theorem absent_hook_runtime_suspend_can_fail :
    hook_absent unbound_dev dev_pm_ops.runtime_suspend ∧
    scsi_bus_runtime_suspend env_busy unbound_dev (world_init 3 rpm_status.RPM_ACTIVE) =
      (-16, ⟨3, rpm_status.RPM_ACTIVE, true, [⟨Call.blk_pre_runtime_suspend (-16), 3⟩]⟩) :=
  ⟨Or.inl rfl, by decide⟩

/-- C15 (amended): the cached power state is force-set only by
`scsi_bus_suspend`, `scsi_bus_thaw` and `scsi_bus_restore`, once, as the middle
call of their closing disable / set / enable sequence, and exactly when they
return 0.  That covers a Stop or Start primitive that ran and succeeded, and
also the executions in which none ran: a node that is not a leaf device, or a
leaf device cached SUSPENDED.  No other entry point forces the state, and none
does when it returns an error. -/
theorem force_state_call_sites (env : Env) (fuel : Nat) (dev : device) (w : World) :
    (∃ new, (scsi_bus_prepare dev w).2.trace = w.trace ++ new ∧ no_force new) ∧
    (∃ new, (scsi_bus_resume env dev w).2.trace = w.trace ++ new ∧ no_force new) ∧
    (∃ new, (scsi_bus_runtime_suspend env dev w).2.trace = w.trace ++ new ∧ no_force new) ∧
    (∃ new, (scsi_bus_runtime_resume dev w).2.trace = w.trace ++ new ∧ no_force new) ∧
    (∃ new, (scsi_bus_runtime_idle env dev w).2.trace = w.trace ++ new ∧ no_force new) ∧
    (∀ r w', scsi_bus_freeze env fuel dev w = some (r, w') →
      ∃ new, w'.trace = w.trace ++ new ∧ no_force new) ∧
    (∀ r w', scsi_bus_poweroff env fuel dev w = some (r, w') →
      ∃ new, w'.trace = w.trace ++ new ∧ no_force new) ∧
    (∀ r w', scsi_bus_suspend env fuel dev w = some (r, w') →
      ∃ mid, (∀ e ∈ mid, e.call.is_stop = true) ∧ no_force mid ∧
        (r ≠ 0 → w'.trace = w.trace ++ mid) ∧
        (r = 0 → ∃ np, w'.trace = w.trace ++ mid ++
          [⟨Call.__pm_runtime_disable false, np⟩, ⟨Call.pm_runtime_set_suspended, np⟩,
            ⟨Call.pm_runtime_enable, np⟩])) ∧
    (∃ start, (∀ e ∈ start, e.call.is_start = true) ∧ no_force start ∧
      ((scsi_bus_thaw dev w).1 ≠ 0 → (scsi_bus_thaw dev w).2.trace = w.trace ++ start) ∧
      ((scsi_bus_thaw dev w).1 = 0 → (scsi_bus_thaw dev w).2.trace = w.trace ++ start ++
        [⟨Call.pm_runtime_disable, w.nr_pending⟩, ⟨Call.pm_runtime_set_active, w.nr_pending⟩,
          ⟨Call.pm_runtime_enable, w.nr_pending⟩])) ∧
    (∃ start, (∀ e ∈ start, e.call.is_start = true) ∧ no_force start ∧
      ((scsi_bus_restore dev w).1 ≠ 0 → (scsi_bus_restore dev w).2.trace = w.trace ++ start) ∧
      ((scsi_bus_restore dev w).1 = 0 → (scsi_bus_restore dev w).2.trace = w.trace ++ start ++
        [⟨Call.pm_runtime_disable, w.nr_pending⟩, ⟨Call.pm_runtime_set_active, w.nr_pending⟩,
          ⟨Call.pm_runtime_enable, w.nr_pending⟩])) := by
  have hresume : ∀ cb, ∃ start, (∀ e ∈ start, e.call.is_start = true) ∧ no_force start ∧
      ((scsi_bus_resume_common dev cb w).1 ≠ 0 →
        (scsi_bus_resume_common dev cb w).2.trace = w.trace ++ start) ∧
      ((scsi_bus_resume_common dev cb w).1 = 0 →
        (scsi_bus_resume_common dev cb w).2.trace = w.trace ++ start ++
          [⟨Call.pm_runtime_disable, w.nr_pending⟩, ⟨Call.pm_runtime_set_active, w.nr_pending⟩,
            ⟨Call.pm_runtime_enable, w.nr_pending⟩]) := by
    intro cb
    by_cases hr : (scsi_bus_resume_common dev cb w).1 = 0
    · obtain ⟨start, h1, h2⟩ := scsi_bus_resume_common_success dev cb w hr
      exact ⟨start, h1, no_force_of_is_start start h1, fun hne => absurd hr hne,
        fun _ => by rw [h2]⟩
    · obtain ⟨start, h1, h2⟩ := scsi_bus_resume_common_failure dev cb w hr
      exact ⟨start, h1, no_force_of_is_start start h1, fun _ => by rw [h2],
        fun h0 => absurd h0 hr⟩
  have hstop : ∀ cb r w', scsi_bus_suspend_common env fuel dev cb w = some (r, w') →
      ∃ new, w'.trace = w.trace ++ new ∧ no_force new := by
    intro cb r w' h
    obtain ⟨_, _, new, hnew, hst⟩ := scsi_bus_suspend_common_frame env fuel dev cb w r w' h
    exact ⟨new, hnew, no_force_of_is_stop new hst⟩
  refine ⟨?_, ?_, ?_, ?_, ?_, fun r w' h => hstop _ r w' h, fun r w' h => hstop _ r w' h,
    ?_, hresume _, hresume _⟩
  · unfold scsi_bus_prepare
    by_cases hs : scsi_is_sdev_device dev = true
    · exact ⟨[⟨Call.async_synchronize_full_domain, w.nr_pending⟩],
        by simp [hs, async_synchronize_full_domain],
        by intro e he; simp at he; subst he; rfl⟩
    · by_cases hh : scsi_is_host_device dev = true
      · exact ⟨[⟨Call.scsi_complete_async_scans, w.nr_pending⟩],
          by simp [hs, hh, scsi_complete_async_scans],
          by intro e he; simp at he; subst he; rfl⟩
      · exact ⟨[], by simp [hs, hh], by intro e he; simp at he⟩
  · exact ⟨[⟨Call.pm_request_resume (env.pm_request_resume w), w.nr_pending⟩],
      by simp [scsi_bus_resume, pm_request_resume],
      by intro e he; simp at he; subst he; rfl⟩
  · unfold scsi_bus_runtime_suspend
    by_cases hs : scsi_is_sdev_device dev = true
    · simp only [hs, if_true]
      obtain ⟨tail, ht, hc⟩ := sdev_suspend_common_calls env
        (pm_slot (driver_pm dev) dev_pm_ops.runtime_suspend) w
      exact ⟨tail, by rw [ht], no_force_of_is_stop tail hc⟩
    · simp only [hs]
      exact ⟨[], by simp, by intro e he; simp at he⟩
  · unfold scsi_bus_runtime_resume
    by_cases hs : scsi_is_sdev_device dev = true
    · simp only [hs, if_true]
      obtain ⟨start, h1, _, h3⟩ := sdev_resume_calls
        (pm_slot (driver_pm dev) dev_pm_ops.runtime_resume) w
      exact ⟨start, by rw [h3], no_force_of_is_start start h1⟩
    · simp only [hs]
      exact ⟨[], by simp, by intro e he; simp at he⟩
  · unfold scsi_bus_runtime_idle
    by_cases hs : scsi_is_sdev_device dev = true
    · exact ⟨[⟨Call.pm_runtime_mark_last_busy, w.nr_pending⟩,
        ⟨Call.pm_runtime_autosuspend
          (env.pm_runtime_autosuspend (w.log Call.pm_runtime_mark_last_busy)), w.nr_pending⟩],
        by simp [hs, pm_runtime_autosuspend, pm_runtime_mark_last_busy],
        by intro e he; simp at he; rcases he with rfl | rfl <;> rfl⟩
    · exact ⟨[⟨Call.pm_runtime_suspend (env.pm_runtime_suspend w), w.nr_pending⟩],
        by simp [hs, pm_runtime_suspend],
        by intro e he; simp at he; subst he; rfl⟩
  · intro r w' h
    obtain ⟨w1, hc, hne, heq⟩ := scsi_bus_suspend_some env fuel dev w r w' h
    obtain ⟨_, _, mid, hmid, hst⟩ := scsi_bus_suspend_common_frame env fuel dev _ w r w1 hc
    refine ⟨mid, hst, no_force_of_is_stop mid hst, fun hr => by rw [hne hr, hmid],
      fun hr => ⟨w1.nr_pending, by rw [heq hr]; simp [hmid]⟩⟩

/-- Witness for C15: a successful `scsi_bus_suspend` of a leaf device with one
request pending forces the state once, at the end. -/
theorem force_state_call_sites_witness :
    ∃ mid, (∀ e ∈ mid, e.call.is_stop = true) ∧ no_force mid ∧
      ((0 : Int) ≠ 0 →
        ([⟨Call.scsi_run_queue, 1⟩, ⟨Call.blk_pre_runtime_suspend 0, 0⟩, ⟨Call.cb 1 0, 0⟩,
          ⟨Call.blk_post_runtime_suspend 0, 0⟩, ⟨Call.__pm_runtime_disable false, 0⟩,
          ⟨Call.pm_runtime_set_suspended, 0⟩, ⟨Call.pm_runtime_enable, 0⟩] : List Event) =
          [] ++ mid) ∧
      ((0 : Int) = 0 → ∃ np,
        ([⟨Call.scsi_run_queue, 1⟩, ⟨Call.blk_pre_runtime_suspend 0, 0⟩, ⟨Call.cb 1 0, 0⟩,
          ⟨Call.blk_post_runtime_suspend 0, 0⟩, ⟨Call.__pm_runtime_disable false, 0⟩,
          ⟨Call.pm_runtime_set_suspended, 0⟩, ⟨Call.pm_runtime_enable, 0⟩] : List Event) =
          [] ++ mid ++
            [⟨Call.__pm_runtime_disable false, np⟩, ⟨Call.pm_runtime_set_suspended, np⟩,
              ⟨Call.pm_runtime_enable, np⟩]) :=
  (force_state_call_sites env_ok 2 sd_dev (world_init 1 rpm_status.RPM_ACTIVE)).2.2.2.2.2.2.2.1
    0 ⟨0, rpm_status.RPM_SUSPENDED, true,
      [⟨Call.scsi_run_queue, 1⟩, ⟨Call.blk_pre_runtime_suspend 0, 0⟩, ⟨Call.cb 1 0, 0⟩,
        ⟨Call.blk_post_runtime_suspend 0, 0⟩, ⟨Call.__pm_runtime_disable false, 0⟩,
        ⟨Call.pm_runtime_set_suspended, 0⟩, ⟨Call.pm_runtime_enable, 0⟩]⟩ (by decide)

/-- C15 (as stated) fails: the state is forced in executions where no Stop or
Start primitive ran.  On a host node `scsi_bus_suspend` forces SUSPENDED and
`scsi_bus_thaw` forces ACTIVE with no queue call and no hook; on a leaf device
cached SUSPENDED `scsi_bus_suspend` forces SUSPENDED again, the Stop primitive
being skipped. -/
theorem state_forced_without_stop_or_start :
    scsi_bus_suspend env_ok 0 host_dev (world_init 0 rpm_status.RPM_ACTIVE) =
      some (0, ⟨0, rpm_status.RPM_SUSPENDED, true,
        [⟨Call.__pm_runtime_disable false, 0⟩, ⟨Call.pm_runtime_set_suspended, 0⟩,
          ⟨Call.pm_runtime_enable, 0⟩]⟩) ∧
    scsi_bus_thaw host_dev (world_init 0 rpm_status.RPM_SUSPENDED) =
      (0, ⟨0, rpm_status.RPM_ACTIVE, true,
        [⟨Call.pm_runtime_disable, 0⟩, ⟨Call.pm_runtime_set_active, 0⟩,
          ⟨Call.pm_runtime_enable, 0⟩]⟩) ∧
    scsi_bus_suspend env_ok 0 sd_dev (world_init 0 rpm_status.RPM_SUSPENDED) =
      some (0, ⟨0, rpm_status.RPM_SUSPENDED, true,
        [⟨Call.__pm_runtime_disable false, 0⟩, ⟨Call.pm_runtime_set_suspended, 0⟩,
          ⟨Call.pm_runtime_enable, 0⟩]⟩) := by
  decide

end ScsiPm
